import Mathlib

/-!
Verification development for the dynamic-bonding-curve SDK's curve-construction
and fee/vesting mathematics (`buildCurve.ts`, `build.ts`, `helpers/utils.ts`).

Shallow embedding conventions:

* `BN` (bn.js big integers) is embedded as `Int`.  `BN.div` truncates toward
  zero and asserts a nonzero divisor; we embed it as `bnDiv`, with the
  divisor-zero case mapped to `0` inside total helper functions, and made an
  explicit error (`BuildErr.divisionByZero`) at the one place a zero divisor
  is reachable in the sources (the creator-first-buy `l0` solve).
* `Decimal` (decimal.js arbitrary-precision decimal values) is embedded as the
  exact-rational type `Dec` below.  The spec (§4.5, §9) describes the decimal
  arithmetic as exact ("recomputed exactly", "only quantize to fixed point at
  segment emission"); the single transcendental operation, the 16th/15th root
  `(pMax/pMin)^(1/16)`, cannot be exact and is passed to the builders as an
  explicit parameter `q` standing for the decimal library's rounded result.
* JavaScript `number` inputs are embedded as `Dec`; `new BN(x)` on such a
  number truncates toward zero (`bnOfNumber`).
* The helper modules `helpers/common.ts`, `math/curve.ts` and `constants.ts`
  are not present under `src/`; definitions translated from them are modelled
  from the spec and are marked `Modelled from the spec:` in their doc comments.
-/

namespace Meteora

/-! ## Exact rational arithmetic (embedding of decimal.js values) -/

/-- An exact rational number: the embedding of a decimal.js `Decimal` value.
All constructors used below keep `den` positive. -/
structure Dec where
  num : Int
  den : Int
  deriving DecidableEq

/-- Normalize a quotient `n / d` to lowest terms with a positive denominator.
A zero denominator collapses to `0` (total model of the division-by-zero
cases that make decimal.js produce a non-finite value). -/
def decNorm (n d : Int) : Dec :=
  if d = 0 then ⟨0, 1⟩
  else
    let g : Int := (Int.gcd n d : Int)
    if 0 < d then ⟨n / g, d / g⟩ else ⟨-(n / g), -(d / g)⟩

def Dec.ofInt (n : Int) : Dec := ⟨n, 1⟩

def Dec.add (a b : Dec) : Dec := decNorm (a.num * b.den + b.num * a.den) (a.den * b.den)

def Dec.sub (a b : Dec) : Dec := decNorm (a.num * b.den - b.num * a.den) (a.den * b.den)

def Dec.mul (a b : Dec) : Dec := decNorm (a.num * b.num) (a.den * b.den)

def Dec.div (a b : Dec) : Dec := decNorm (a.num * b.den) (a.den * b.num)

def Dec.pow (a : Dec) : Nat → Dec
  | 0 => Dec.ofInt 1
  | n + 1 => a.mul (a.pow n)

/-- Floor of a `Dec` value (denominator positive for all constructed values). -/
def Dec.floor (a : Dec) : Int := a.num / a.den

/-- Order on `Dec` values by cross multiplication (valid for positive
denominators, which all constructed values have). -/
def Dec.le (a b : Dec) : Prop := a.num * b.den ≤ b.num * a.den

instance (a b : Dec) : Decidable (Dec.le a b) := Int.decLe (a.num * b.den) (b.num * a.den)

/-- Interpretation of a `Dec` value as a rational number, for specification
and proofs only. -/
def Dec.toRat (a : Dec) : ℚ := (a.num : ℚ) / (a.den : ℚ)


/-! ## Integer helpers (embedding of bn.js operations) -/

/-- bn.js `div`: truncated division (toward zero); the divisor-zero case is
mapped to `0` here (bn.js asserts). -/
def bnDiv (a b : Int) : Int :=
  if (0 ≤ a ∧ 0 ≤ b) ∨ (a < 0 ∧ b < 0) then ((a.natAbs / b.natAbs : Nat) : Int)
  else -((a.natAbs / b.natAbs : Nat) : Int)

/-- Ceiling division, used for base-token deltas (nonnegative operands in all
reachable uses). -/
def bnDivCeil (a b : Int) : Int := bnDiv (a + b - 1) b

/-- `new BN(x)` on a JavaScript number: truncation toward zero. -/
def bnOfNumber (x : Dec) : Int := bnDiv x.num x.den

/-- Fuel-driven Newton iteration for the integer square root. -/
def sqrtAux (n : Nat) : Nat → Nat → Nat
  | guess, 0 => guess
  | guess, fuel + 1 =>
    let next := (guess + n / guess) / 2
    if next < guess then sqrtAux n next fuel else guess

/-- Integer square root (`⌊√n⌋`); the fuel bound 400 is sufficient for all
values below `2^380`, far beyond the 128-bit fixed-point range used here. -/
def intSqrt (n : Nat) : Nat :=
  if n ≤ 1 then n else sqrtAux n (n / 2 + 1) 400

/-- 10 to a decimal-count power, as an integer. -/
def tenPow (d : Nat) : Int := Int.ofNat (Nat.pow 10 d)

/-- 2 to a bit-count power, as an integer. -/
def twoPow (d : Nat) : Int := Int.ofNat (Nat.pow 2 d)

/-- Larger of two `Dec` values. -/
def Dec.max (a b : Dec) : Dec := if Dec.le a b then b else a

/-! ## Constants (embedding of `constants.ts`, not under src/) -/

/-- Modelled from the spec: the global maximum sqrt-price constant
`MAX_SQRT_PRICE` (§3: sqrt prices are "bounded above by a global maximum
constant"); `constants.ts` is not under src/, so the SDK's published value is
used. -/
def MAX_SQRT_PRICE : Int := 79226673521066979257578248091

/-- Fee denominator: the ratio `FEE_DENOMINATOR / BASIS_POINT_MAX = 100000` is
visible in src (`build.ts` uses `baseFeeBps * 100000` for the cliff fee
numerator and `buildCurve.ts` divides by the literal `1_000_000_000`). -/
def FEE_DENOMINATOR : Int := 1000000000

/-- Basis-point denominator (10000 basis points = 100%). -/
def BASIS_POINT_MAX : Int := 10000

/-! ## Data model -/

/-- `LockedVesting` schedule, raw token units (§3). -/
structure LockedVesting where
  amountPerPeriod : Int
  cliffDurationFromMigrationTime : Int
  frequency : Int
  numberOfPeriod : Int
  cliffUnlockAmount : Int
  deriving DecidableEq

/-- One curve segment `{ sqrtPrice, liquidity }` (§3 CurveSegment). -/
structure Segment where
  sqrtPrice : Int
  liquidity : Int
  deriving DecidableEq

/-- Fee-scheduler input parameters (JavaScript numbers). -/
structure FeeSchedulerParam where
  numberOfPeriod : Dec
  reductionFactor : Dec
  periodFrequency : Dec
  feeSchedulerMode : Int
  deriving DecidableEq

/-- Creator first-buy option of `buildCurveWithCreatorFirstBuy`. -/
structure CreatorFirstBuyOption where
  quoteAmount : Dec
  baseAmount : Dec
  deriving DecidableEq

/-- Base-fee schedule as placed in the output configuration.  The TS code keeps
`numberOfPeriod` as a raw number and wraps the other two fields in `BN`. -/
structure BaseFeeParams where
  cliffFeeNumerator : Int
  numberOfPeriod : Dec
  reductionFactor : Int
  periodFrequency : Int
  feeSchedulerMode : Int
  deriving DecidableEq

/-- Dynamic (volatility) fee parameters (§3 DynamicFeeParams). -/
structure DynamicFeeParams where
  binStep : Int
  binStepU128 : Int
  filterPeriod : Int
  decayPeriod : Int
  reductionFactor : Int
  variableFeeControl : Int
  maxVolatilityAccumulator : Int
  deriving DecidableEq

structure PoolFeeParams where
  baseFee : BaseFeeParams
  dynamicFee : Option DynamicFeeParams
  deriving DecidableEq

structure TokenSupplyParams where
  preMigrationTokenSupply : Int
  postMigrationTokenSupply : Int
  deriving DecidableEq

/-- The output artifact `ConfigParameters` (§3), with the `padding` fields
dropped. -/
structure ConfigParameters where
  poolFees : PoolFeeParams
  activationType : Int
  collectFeeMode : Int
  migrationOption : Int
  tokenType : Int
  tokenDecimal : Nat
  migrationQuoteThreshold : Int
  partnerLpPercentage : Dec
  creatorLpPercentage : Dec
  partnerLockedLpPercentage : Dec
  creatorLockedLpPercentage : Dec
  sqrtStartPrice : Int
  lockedVesting : LockedVesting
  migrationFeeOption : Int
  tokenSupply : TokenSupplyParams
  creatorTradingFeePercentage : Dec
  curve : List Segment
  deriving DecidableEq

/-- Error taxonomy (§7).  The TS code throws `Error` values with message
strings; each constructor names one thrown error:
`invalidParameterCombination` covers the two mutually-exclusive-inputs
messages of `build.ts` (lines 56-66); `firstPriceGreaterThanInitialMarketCap`
is `'first price is greater than initial market cap'`
(`buildCurve.ts` line 641); `leftOverDeltaExceedsTotalLeftover` is
`'leftOverDelta must be less than totalLeftover'`; `mathOverflow` is
`'Math overflow'` (`utils.ts`); `divisionByZero` is the bn.js division
assertion on a zero divisor. -/
inductive BuildErr where
  | invalidParameterCombination
  | firstPriceGreaterThanInitialMarketCap
  | leftOverDeltaExceedsTotalLeftover
  | mathOverflow
  | divisionByZero
  deriving DecidableEq

/-! ## Utilities present in src (`helpers/utils.ts`) -/

/-- bn.js `bitLength`: number of bits of the magnitude. -/
def bnBitLength (x : Int) : Nat := Nat.size x.natAbs

/-- `getTotalTokenSupply` (src `helpers/utils.ts` lines 165-200): total
circulating plus locked-vesting amount with a 64-bit overflow check.  The
`lockedVestingParams` object argument is flattened into its three fields; the
surrounding try/catch rethrows the same `'Math overflow'` error and the BN
arithmetic itself cannot throw, so the catch branch is not reachable
separately. -/
def getTotalTokenSupply (swapBaseAmount migrationBaseThreshold amountPerPeriod numberOfPeriod cliffUnlockAmount : Int) : Except BuildErr Int :=
  let totalCirculatingAmount := swapBaseAmount + migrationBaseThreshold
  let totalLockedVestingAmount := cliffUnlockAmount + amountPerPeriod * numberOfPeriod
  let totalAmount := totalCirculatingAmount + totalLockedVestingAmount
  if totalAmount < 0 ∨ 64 < bnBitLength totalAmount then Except.error BuildErr.mathOverflow
  else Except.ok totalAmount

/-- `calculateVolatilityAccumulator` (src `helpers/utils.ts` lines 356-363):
`v_a(k) = v_r + |i_r - (activeId + k)|`; the inputs are JavaScript numbers,
embedded at integer arguments. -/
def calculateVolatilityAccumulator (volatilityReference indexReference activeId k : Int) : Int :=
  volatilityReference + ((indexReference - (activeId + k)).natAbs : Int)

/-- `calculateDynamicFeeParameters` (src `helpers/utils.ts` lines 448-479);
the default `targetRatio` is 0.2 and is passed explicitly here. -/
def calculateDynamicFeeParameters (baseFeeBps targetRatio : Dec) : DynamicFeeParams :=
  let baseFee := baseFeeBps.mul (Dec.ofInt 100000)
  let variableFeeControl := (baseFee.mul targetRatio).floor
  ⟨1, 1844674407370955, 10, 120, 5000, variableFeeControl, 100000⟩

/-! ## Helpers modelled from the spec (`helpers/common.ts`, `math/curve.ts`,
not under src/) -/

/-- Modelled from the spec: `totalVestingAmount` (§3 invariant
`cliffUnlockAmount + amountPerPeriod * numberOfPeriod`); the same formula
appears in src `utils.ts` `getTotalTokenSupply` and in the tests.
(`helpers/common.ts` is not under src/.) -/
def getTotalVestingAmount (lockedVesting : LockedVesting) : Int :=
  lockedVesting.cliffUnlockAmount + lockedVesting.amountPerPeriod * lockedVesting.numberOfPeriod

/-- Modelled from the spec: the vesting-derivation helper `getLockedVesting`
(§8 Round-trip; exercised by the `calculateLockedVesting` tests, the helper
itself is not under src/): the per-period amount is scaled by the token
decimals and the remainder of the scaled target total is assigned to the
cliff unlock amount. -/
def getLockedVesting (totalVestingAmount numberOfPeriod amountPerPeriod cliffDurationFromMigrationTime frequency : Int) (tokenDecimal : Nat) : LockedVesting :=
  ⟨amountPerPeriod * tenPow tokenDecimal,
   cliffDurationFromMigrationTime,
   frequency,
   numberOfPeriod,
   totalVestingAmount * tenPow tokenDecimal - amountPerPeriod * numberOfPeriod * tenPow tokenDecimal⟩

/-- Modelled from the spec: `getSqrtPriceFromPrice` (§4.1): decimal-scale
adjustment `price * 10^(quoteDecimals-baseDecimals)`, square root, quantized
into the Q64.64 fixed-point representation (`helpers/common.ts` is not under
src/). -/
def getSqrtPriceFromPrice (price : Dec) (tokenBaseDecimal tokenQuoteDecimal : Nat) : Int :=
  Int.ofNat (intSqrt ((price.num.toNat * Nat.pow 10 tokenQuoteDecimal * Nat.pow 2 128) /
    (price.den.toNat * Nat.pow 10 tokenBaseDecimal)))

/-- Modelled from the spec: `getSqrtPriceFromMarketCap` (§4.1): implied unit
price `marketCap / totalSupply`, then `getSqrtPriceFromPrice`. -/
def getSqrtPriceFromMarketCap (marketCap totalTokenSupply : Dec) (tokenBaseDecimal tokenQuoteDecimal : Nat) : Int :=
  getSqrtPriceFromPrice (marketCap.div totalTokenSupply) tokenBaseDecimal tokenQuoteDecimal

/-- Modelled from the spec: `getMigrationBaseToken` (§4.6 migration portion):
base amount that absorbs the quote threshold at the migration price, rounded
up; the spec describes no `migrationOption`-specific behavior, so the option
argument is accepted and ignored. -/
def getMigrationBaseToken (migrationQuoteThreshold sqrtMigrationPrice _migrationOption : Int) : Int :=
  bnDivCeil (migrationQuoteThreshold * twoPow 128) (sqrtMigrationPrice * sqrtMigrationPrice)

/-- Modelled from the spec: `getInitialLiquidityFromDeltaBase`
(`math/curve.ts`, not under src/): the §4.5 formula
`L = amountBase * (p1 * p0) / (p1 - p0)`. -/
def getInitialLiquidityFromDeltaBase (baseAmount sqrtMaxPrice sqrtPrice : Int) : Int :=
  bnDiv (baseAmount * sqrtMaxPrice * sqrtPrice) (sqrtMaxPrice - sqrtPrice)

/-- Modelled from the spec: liquidity from a quote-token delta, inverting the
glossary identity `Δquote = L * (p1 - p0) / 2^128`. -/
def getInitialLiquidityFromDeltaQuote (quoteAmount sqrtMinPrice sqrtMaxPrice : Int) : Int :=
  bnDiv (quoteAmount * twoPow 128) (sqrtMaxPrice - sqrtMinPrice)

/-- Modelled from the spec: `getFirstCurve` (§4.5 mode 1): the start price is
back-solved from the constant-product identity, and the single segment's
liquidity must satisfy both the base-consumption and the quote-output
constraints (the smaller of the two solves). -/
def getFirstCurve (migrationSqrtPrice migrationBaseAmount swapAmount migrationQuoteThreshold : Int) : Int × List Segment :=
  let sqrtStartPrice := bnDiv (migrationSqrtPrice * migrationBaseAmount) swapAmount
  let liquidity := min
    (getInitialLiquidityFromDeltaBase swapAmount migrationSqrtPrice sqrtStartPrice)
    (getInitialLiquidityFromDeltaQuote migrationQuoteThreshold sqrtStartPrice migrationSqrtPrice)
  (sqrtStartPrice, [⟨migrationSqrtPrice, liquidity⟩])

/-- Walk over the curve accumulating per-segment base-token deltas
`Δbase = L * (upper - lower) / (lower * upper)` (glossary identity), rounded
up, stopping at the first boundary above the migration price. -/
def baseTokenWalk (sqrtMigrationPrice : Int) : Int → List Segment → Int
  | _, [] => 0
  | lower, seg :: rest =>
    if sqrtMigrationPrice < seg.sqrtPrice then
      bnDivCeil (seg.liquidity * (sqrtMigrationPrice - lower)) (lower * sqrtMigrationPrice)
    else
      bnDivCeil (seg.liquidity * (seg.sqrtPrice - lower)) (lower * seg.sqrtPrice) +
        baseTokenWalk sqrtMigrationPrice seg.sqrtPrice rest

/-- Modelled from the spec: `getBaseTokenForSwap` (§4.5: "the base tokens
actually consumed while trading from pMin to pMax are recomputed exactly"). -/
def getBaseTokenForSwap (sqrtStartPrice sqrtMigrationPrice : Int) (curve : List Segment) : Int :=
  baseTokenWalk sqrtMigrationPrice sqrtStartPrice curve

/-- Modelled from the spec: `getSwapAmountWithBuffer` (§4.5: "a small buffer
is added to the consumed amount to absorb rounding"); modelled as a 25%
buffer capped by the total base content of the curve. -/
def getSwapAmountWithBuffer (swapBaseAmount sqrtStartPrice : Int) (curve : List Segment) : Int :=
  min (swapBaseAmount + bnDiv (swapBaseAmount * 25) 100)
    (getBaseTokenForSwap sqrtStartPrice MAX_SQRT_PRICE curve)

/-- Upper sqrt price of the last curve segment (the curve's migration price),
defaulting to the start price for an empty curve. -/
def curveLastSqrtPrice (sqrtStartPrice : Int) (curve : List Segment) : Int :=
  ((curve.getLast?).map Segment.sqrtPrice).getD sqrtStartPrice

/-- Modelled from the spec: `getTotalSupplyFromCurve` (§4.6):
`totalDynamicSupply = swapPortion (buffered) + migrationPortion +
vestingPortion + leftover`; the migration price is taken as the last curve
boundary. -/
def getTotalSupplyFromCurve (migrationQuoteThreshold sqrtStartPrice : Int) (curve : List Segment)
    (lockedVesting : LockedVesting) (migrationOption totalLeftover : Int) : Int :=
  let sqrtMigrationPrice := curveLastSqrtPrice sqrtStartPrice curve
  let swapBaseAmount := getBaseTokenForSwap sqrtStartPrice sqrtMigrationPrice curve
  let swapBaseAmountBuffer := getSwapAmountWithBuffer swapBaseAmount sqrtStartPrice curve
  swapBaseAmountBuffer + getMigrationBaseToken migrationQuoteThreshold sqrtMigrationPrice migrationOption +
    getTotalVestingAmount lockedVesting + totalLeftover

/-- Modelled from the spec: `bpsToFeeNumerator`: basis points scaled into the
fee-numerator base (`bps * FEE_DENOMINATOR / BASIS_POINT_MAX`). -/
def bpsToFeeNumerator (bps : Dec) : Int :=
  bnDiv (bnOfNumber bps * FEE_DENOMINATOR) BASIS_POINT_MAX

/-- Modelled from the spec: `getMinBaseFeeBps` (§4.3): the fee at the final
period converted back to basis points, clamped to at least zero.  Linear
mode: `cliff - n * r`; exponential mode: `cliff * (1 - r/BASIS_POINT_MAX)^n`
with the JavaScript float power embedded at integer period counts. -/
def getMinBaseFeeBps (cliffFeeNumerator numberOfPeriod reductionFactor : Dec) (feeSchedulerMode : Int) : Dec :=
  let minFeeNumerator :=
    if feeSchedulerMode = 0 then
      cliffFeeNumerator.sub (numberOfPeriod.mul reductionFactor)
    else
      cliffFeeNumerator.mul
        (((Dec.ofInt 1).sub (reductionFactor.div (Dec.ofInt BASIS_POINT_MAX))).pow
          (bnOfNumber numberOfPeriod).toNat)
  Dec.max (Dec.ofInt 0)
    ((minFeeNumerator.div (Dec.ofInt FEE_DENOMINATOR)).mul (Dec.ofInt BASIS_POINT_MAX))

/-- Modelled from the spec: `getDynamicFeeParams` (§4.4
`deriveDynamicFeeParams` with targetRatio 0.2); the same computation as the
src `calculateDynamicFeeParameters`. -/
def getDynamicFeeParams (minBaseFeeBps : Dec) : DynamicFeeParams :=
  calculateDynamicFeeParameters minBaseFeeBps (decNorm 1 5)

/-- Modelled from the spec: `calculateMigrationQuoteThreshold`; the formula is
recorded in the source comment at `buildCurve.ts` line 268:
`migrationQuoteThreshold = migrationMarketCap * migrationBaseSupply /
totalTokenSupply = migrationMarketCap * percentageSupplyOnMigration / 100`. -/
def calculateMigrationQuoteThreshold (migrationMarketCap percentageSupplyOnMigration : Dec) : Dec :=
  (migrationMarketCap.mul percentageSupplyOnMigration).div (Dec.ofInt 100)

/-- Modelled from the spec: `getTwoCurve` (§4.5 mode 2): a split point between
the initial and the migration price (taken as the integer geometric mean),
with the two liquidity values solved exactly from the linear system "combined
base consumption equals swapAmount, combined quote output equals the
migration quote amount", then floored to fixed point. -/
def getTwoCurve (migrationSqrtPrice initialSqrtPrice swapAmount migrationQuoteThreshold : Int) : Int × List Segment :=
  let p0 := initialSqrtPrice
  let p2 := migrationSqrtPrice
  let p1 := Int.ofNat (intSqrt (p0 * p2).toNat)
  let a1 := decNorm (p1 - p0) (p0 * p1)
  let b1 := decNorm (p2 - p1) (p1 * p2)
  let a2 := decNorm (p1 - p0) (twoPow 128)
  let b2 := decNorm (p2 - p1) (twoPow 128)
  let det := (a1.mul b2).sub (a2.mul b1)
  let l0 := (((Dec.ofInt swapAmount).mul b2).sub ((Dec.ofInt migrationQuoteThreshold).mul b1)).div det
  let l1 := ((a1.mul (Dec.ofInt migrationQuoteThreshold)).sub (a2.mul (Dec.ofInt swapAmount))).div det
  (p0, [⟨p1, l0.floor⟩, ⟨p2, l1.floor⟩])

/-! ## Parameter-set validation (src `build.ts` lines 49-66) -/

/-- The parameter-set validation at the top of
`buildCustomConstantProductCurve` (src `build.ts` lines 49-66): it runs
before any arithmetic and throws for both-pairs-supplied
(`'Cannot specify both ...'`) and for neither-pair-fully-supplied
(`'Must specify either ...'`); both thrown errors belong to the
`InvalidParameterCombination` taxonomy class (§7). -/
def buildCustomConstantProductCurveValidation
    (percentageSupplyOnMigration migrationQuoteThreshold initialMarketCap migrationMarketCap : Option Dec) :
    Except BuildErr Unit :=
  let hasPercentageAndThreshold := percentageSupplyOnMigration.isSome && migrationQuoteThreshold.isSome
  let hasMarketCaps := initialMarketCap.isSome && migrationMarketCap.isSome
  if hasPercentageAndThreshold && hasMarketCaps then
    Except.error BuildErr.invalidParameterCombination
  else if !hasPercentageAndThreshold && !hasMarketCaps then
    Except.error BuildErr.invalidParameterCombination
  else Except.ok ()

/-! ## Builder parameter records (embedding of the `types.ts` parameter
objects, reconstructed from the fields each builder destructures) -/

structure BuildCurveParam where
  totalTokenSupply : Dec
  percentageSupplyOnMigration : Dec
  migrationQuoteThreshold : Dec
  migrationOption : Int
  tokenBaseDecimal : Nat
  tokenQuoteDecimal : Nat
  lockedVesting : LockedVesting
  feeSchedulerParam : FeeSchedulerParam
  baseFeeBps : Dec
  dynamicFeeEnabled : Bool
  activationType : Int
  collectFeeMode : Int
  migrationFeeOption : Int
  tokenType : Int
  partnerLpPercentage : Dec
  creatorLpPercentage : Dec
  partnerLockedLpPercentage : Dec
  creatorLockedLpPercentage : Dec
  creatorTradingFeePercentage : Dec
  leftover : Dec
  deriving DecidableEq

structure BuildCurveWithLiquidityWeightsParam where
  totalTokenSupply : Dec
  initialMarketCap : Dec
  migrationMarketCap : Dec
  liquidityWeights : List Dec
  migrationOption : Int
  tokenBaseDecimal : Nat
  tokenQuoteDecimal : Nat
  lockedVesting : LockedVesting
  feeSchedulerParam : FeeSchedulerParam
  baseFeeBps : Dec
  dynamicFeeEnabled : Bool
  activationType : Int
  collectFeeMode : Int
  migrationFeeOption : Int
  tokenType : Int
  partnerLpPercentage : Dec
  creatorLpPercentage : Dec
  partnerLockedLpPercentage : Dec
  creatorLockedLpPercentage : Dec
  creatorTradingFeePercentage : Dec
  leftover : Dec
  deriving DecidableEq

structure BuildCurveWithTwoSegmentsParam where
  totalTokenSupply : Dec
  initialMarketCap : Dec
  migrationMarketCap : Dec
  percentageSupplyOnMigration : Dec
  migrationOption : Int
  tokenBaseDecimal : Nat
  tokenQuoteDecimal : Nat
  lockedVesting : LockedVesting
  feeSchedulerParam : FeeSchedulerParam
  baseFeeBps : Dec
  dynamicFeeEnabled : Bool
  activationType : Int
  collectFeeMode : Int
  migrationFeeOption : Int
  tokenType : Int
  partnerLpPercentage : Dec
  creatorLpPercentage : Dec
  partnerLockedLpPercentage : Dec
  creatorLockedLpPercentage : Dec
  creatorTradingFeePercentage : Dec
  leftover : Dec
  deriving DecidableEq

structure BuildCurveWithCreatorFirstBuyParam where
  totalTokenSupply : Dec
  initialMarketCap : Dec
  migrationMarketCap : Dec
  liquidityWeights : List Dec
  creatorFirstBuyOption : CreatorFirstBuyOption
  migrationOption : Int
  tokenBaseDecimal : Nat
  tokenQuoteDecimal : Nat
  lockedVesting : LockedVesting
  feeSchedulerParam : FeeSchedulerParam
  baseFeeBps : Dec
  dynamicFeeEnabled : Bool
  activationType : Int
  collectFeeMode : Int
  migrationFeeOption : Int
  tokenType : Int
  partnerLpPercentage : Dec
  creatorLpPercentage : Dec
  partnerLockedLpPercentage : Dec
  creatorLockedLpPercentage : Dec
  creatorTradingFeePercentage : Dec
  leftover : Dec
  deriving DecidableEq

/-! ## Shared builder pieces -/

/-- Strict order on `Dec` values by cross multiplication. -/
def Dec.lt (a b : Dec) : Prop := a.num * b.den < b.num * a.den

instance (a b : Dec) : Decidable (Dec.lt a b) := Int.decLt (a.num * b.den) (b.num * a.den)

/-- The common "Calculate minimum base fee for dynamic fee calculation" block
of every builder (e.g. src `buildCurve.ts` lines 136-148): when
`periodFrequency > 0` the minimum fee over the schedule is used, otherwise
the input `baseFeeBps` itself. -/
def minBaseFeeBpsCalc (baseFeeBps : Dec) (fsp : FeeSchedulerParam) : Dec :=
  if Dec.lt (Dec.ofInt 0) fsp.periodFrequency then
    getMinBaseFeeBps ((baseFeeBps.mul (Dec.ofInt FEE_DENOMINATOR)).div (Dec.ofInt BASIS_POINT_MAX))
      fsp.numberOfPeriod fsp.reductionFactor fsp.feeSchedulerMode
  else baseFeeBps

/-- The base-fee record placed in the output configuration by `buildCurve`,
`buildCurveWithTwoSegments` and `buildCurveWithLiquidityWeights`: the fee
scheduler parameters are passed through. -/
def passthroughBaseFee (baseFeeBps : Dec) (fsp : FeeSchedulerParam) : BaseFeeParams :=
  ⟨bpsToFeeNumerator baseFeeBps, fsp.numberOfPeriod, bnOfNumber fsp.reductionFactor,
   bnOfNumber fsp.periodFrequency, fsp.feeSchedulerMode⟩

/-- The supply-reconciliation sanity check shared verbatim by
`buildCurveWithTwoSegments` (src lines 324-330), `buildCurveWithLiquidityWeights`
(src lines 513-519) and `buildCurveWithCreatorFirstBuy` (src lines 732-738):
if the recomputed dynamic supply exceeds the declared total supply, the
excess must be strictly below the leftover budget, else the build throws. -/
def sanitySupplyCheck (totalDynamicSupply totalSupply totalLeftover : Int) : Except BuildErr Unit :=
  if totalSupply < totalDynamicSupply then
    let leftOverDelta := totalDynamicSupply - totalSupply
    if ¬(leftOverDelta < totalLeftover) then Except.error BuildErr.leftOverDeltaExceedsTotalLeftover
    else Except.ok ()
  else Except.ok ()

/-- The geometric sqrt-price grid loop (src `buildCurve.ts` lines 443-450 and
658-666): starting from `pMin`, each step multiplies by the decimal ratio `q`
and requantizes to a BN (floor). -/
def decGrid (q : Dec) : Int → Nat → List Int
  | _, 0 => []
  | price, n + 1 => price :: decGrid q ((q.mul (Dec.ofInt price)).floor) n

/-- The per-segment weight-factor accumulation loop (src `buildCurve.ts`
lines 464-474 and 682-692): for consecutive grid prices `p_{i-1}, p_i` and
weight `k_{i-1}`, accumulate `k * (w1 + w2)` with
`w1 = (p_i - p_{i-1}) / (p_i * p_{i-1})` and
`w2 = (p_i - p_{i-1}) / pMax^2`. -/
def sumFactorWalk (pmaxWeight : Dec) : Int → List Int → List Dec → Dec
  | _, [], _ => Dec.ofInt 0
  | prev, pi :: rest, ks =>
    let piD := Dec.ofInt pi
    let prevD := Dec.ofInt prev
    let k := ks.headD (Dec.ofInt 0)
    let w1 := (piD.sub prevD).div (piD.mul prevD)
    let w2 := (piD.sub prevD).div (pmaxWeight.mul pmaxWeight)
    (k.mul (w1.add w2)).add (sumFactorWalk pmaxWeight pi rest ks.tail)

/-- Indexing into the caller-supplied liquidity-weight array for `n`
segments, with out-of-range entries read as the JavaScript `undefined`
collapse to zero. -/
def weightsPad (ws : List Dec) (n : Nat) : List Dec :=
  (List.range n).map (fun i => ws.getD i (Dec.ofInt 0))

/-! ## buildCurve (src `buildCurve.ts` lines 36-186) -/

def bcMigrationBaseSupply (p : BuildCurveParam) : Int :=
  bnDiv (bnOfNumber p.totalTokenSupply * bnOfNumber p.percentageSupplyOnMigration) 100

def bcTotalSupply (p : BuildCurveParam) : Int :=
  bnOfNumber p.totalTokenSupply * tenPow p.tokenBaseDecimal

def bcMigrationQuoteThresholdScaled (p : BuildCurveParam) : Int :=
  bnOfNumber (p.migrationQuoteThreshold.mul (Dec.ofInt (tenPow p.tokenQuoteDecimal)))

def bcMigrationPrice (p : BuildCurveParam) : Dec :=
  p.migrationQuoteThreshold.div (Dec.ofInt (bcMigrationBaseSupply p))

def bcMigrateSqrtPrice (p : BuildCurveParam) : Int :=
  getSqrtPriceFromPrice (bcMigrationPrice p) p.tokenBaseDecimal p.tokenQuoteDecimal

def bcMigrationBaseAmount (p : BuildCurveParam) : Int :=
  getMigrationBaseToken (bcMigrationQuoteThresholdScaled p) (bcMigrateSqrtPrice p) p.migrationOption

def bcTotalLeftover (p : BuildCurveParam) : Int :=
  bnOfNumber p.leftover * tenPow p.tokenBaseDecimal

def bcSwapAmount (p : BuildCurveParam) : Int :=
  bcTotalSupply p - bcMigrationBaseAmount p - getTotalVestingAmount p.lockedVesting - bcTotalLeftover p

def bcFirstCurveResult (p : BuildCurveParam) : Int × List Segment :=
  getFirstCurve (bcMigrateSqrtPrice p) (bcMigrationBaseAmount p) (bcSwapAmount p)
    (bcMigrationQuoteThresholdScaled p)

def bcSqrtStartPrice (p : BuildCurveParam) : Int := (bcFirstCurveResult p).1

def bcFirstCurve (p : BuildCurveParam) : List Segment := (bcFirstCurveResult p).2

def bcTotalDynamicSupply (p : BuildCurveParam) : Int :=
  getTotalSupplyFromCurve (bcMigrationQuoteThresholdScaled p) (bcSqrtStartPrice p) (bcFirstCurve p)
    p.lockedVesting p.migrationOption (bcTotalLeftover p)

def bcRemainingAmount (p : BuildCurveParam) : Int := bcTotalSupply p - bcTotalDynamicSupply p

/-- The liquidity of the terminal drain segment of `buildCurve`
(src lines 123-127). -/
def bcLastLiquidity (p : BuildCurveParam) : Int :=
  getInitialLiquidityFromDeltaBase (bcRemainingAmount p) MAX_SQRT_PRICE (bcMigrateSqrtPrice p)

/-- The final curve of `buildCurve`: the solved single segment, with the
drain segment to `MAX_SQRT_PRICE` appended when its liquidity is nonzero
(src lines 129-134). -/
def bcCurve (p : BuildCurveParam) : List Segment :=
  bcFirstCurve p ++ (if bcLastLiquidity p = 0 then [] else [⟨MAX_SQRT_PRICE, bcLastLiquidity p⟩])

/-- `buildCurve` (src `buildCurve.ts` lines 36-186): the single-segment
builder mode.  The source contains no throw statement of its own, so the
embedding is a total function. -/
def buildCurve (p : BuildCurveParam) : ConfigParameters :=
  { poolFees := ⟨passthroughBaseFee p.baseFeeBps p.feeSchedulerParam,
      if p.dynamicFeeEnabled then some (getDynamicFeeParams (minBaseFeeBpsCalc p.baseFeeBps p.feeSchedulerParam)) else none⟩,
    activationType := p.activationType,
    collectFeeMode := p.collectFeeMode,
    migrationOption := p.migrationOption,
    tokenType := p.tokenType,
    tokenDecimal := p.tokenBaseDecimal,
    migrationQuoteThreshold := bcMigrationQuoteThresholdScaled p,
    partnerLpPercentage := p.partnerLpPercentage,
    creatorLpPercentage := p.creatorLpPercentage,
    partnerLockedLpPercentage := p.partnerLockedLpPercentage,
    creatorLockedLpPercentage := p.creatorLockedLpPercentage,
    sqrtStartPrice := bcSqrtStartPrice p,
    lockedVesting := p.lockedVesting,
    migrationFeeOption := p.migrationFeeOption,
    tokenSupply := ⟨bcTotalSupply p, bcTotalSupply p⟩,
    creatorTradingFeePercentage := p.creatorTradingFeePercentage,
    curve := bcCurve p }

/-! ## buildCurveWithLiquidityWeights (src `buildCurve.ts` lines 389-571).
The parameter `q` is, modelled from the spec, the decimal library's value for
`priceRatio^(1/16)` (src lines 436-440); the transcendental root itself is
external to src/. -/

def wlPMin (p : BuildCurveWithLiquidityWeightsParam) : Int :=
  getSqrtPriceFromMarketCap p.initialMarketCap p.totalTokenSupply p.tokenBaseDecimal p.tokenQuoteDecimal

def wlPMax (p : BuildCurveWithLiquidityWeightsParam) : Int :=
  getSqrtPriceFromMarketCap p.migrationMarketCap p.totalTokenSupply p.tokenBaseDecimal p.tokenQuoteDecimal

def wlSqrtPrices (p : BuildCurveWithLiquidityWeightsParam) (q : Dec) : List Int :=
  decGrid q (wlPMin p) 17

def wlTotalSupply (p : BuildCurveWithLiquidityWeightsParam) : Int :=
  bnOfNumber p.totalTokenSupply * tenPow p.tokenBaseDecimal

def wlTotalLeftover (p : BuildCurveWithLiquidityWeightsParam) : Int :=
  bnOfNumber p.leftover * tenPow p.tokenBaseDecimal

def wlTotalSwapAndMigrationAmount (p : BuildCurveWithLiquidityWeightsParam) : Int :=
  wlTotalSupply p - getTotalVestingAmount p.lockedVesting - wlTotalLeftover p

def wlSumFactor (p : BuildCurveWithLiquidityWeightsParam) (q : Dec) : Dec :=
  match wlSqrtPrices p q with
  | [] => Dec.ofInt 0
  | h :: t => sumFactorWalk (Dec.ofInt (wlPMax p)) h t p.liquidityWeights

def wlL1 (p : BuildCurveWithLiquidityWeightsParam) (q : Dec) : Dec :=
  (Dec.ofInt (wlTotalSwapAndMigrationAmount p)).div (wlSumFactor p q)

/-- The 16 curve segments (src lines 479-488): boundary `i < 15` is grid
price `i+1`, boundary 15 is `pMax`; liquidity `floor (l1 * k_i)`. -/
def wlCurve (p : BuildCurveWithLiquidityWeightsParam) (q : Dec) : List Segment :=
  List.zipWith (fun bp k => ⟨bp, ((wlL1 p q).mul k).floor⟩)
    (((wlSqrtPrices p q).drop 1).take 15 ++ [wlPMax p])
    (weightsPad p.liquidityWeights 16)

def wlSwapBaseAmount (p : BuildCurveWithLiquidityWeightsParam) (q : Dec) : Int :=
  getBaseTokenForSwap (wlPMin p) (wlPMax p) (wlCurve p q)

def wlSwapBaseAmountBuffer (p : BuildCurveWithLiquidityWeightsParam) (q : Dec) : Int :=
  getSwapAmountWithBuffer (wlSwapBaseAmount p q) (wlPMin p) (wlCurve p q)

def wlMigrationAmount (p : BuildCurveWithLiquidityWeightsParam) (q : Dec) : Int :=
  wlTotalSwapAndMigrationAmount p - wlSwapBaseAmountBuffer p q

/-- `migrationAmount * pMax * pMax >> 128` (src line 501). -/
def wlMigrationQuoteThreshold (p : BuildCurveWithLiquidityWeightsParam) (q : Dec) : Int :=
  bnDiv (wlMigrationAmount p q * wlPMax p * wlPMax p) (twoPow 128)

def wlTotalDynamicSupply (p : BuildCurveWithLiquidityWeightsParam) (q : Dec) : Int :=
  getTotalSupplyFromCurve (wlMigrationQuoteThreshold p q) (wlPMin p) (wlCurve p q)
    p.lockedVesting p.migrationOption (wlTotalLeftover p)

/-- `buildCurveWithLiquidityWeights` (src `buildCurve.ts` lines 389-571). -/
def buildCurveWithLiquidityWeights (p : BuildCurveWithLiquidityWeightsParam) (q : Dec) :
    Except BuildErr ConfigParameters :=
  match sanitySupplyCheck (wlTotalDynamicSupply p q) (wlTotalSupply p) (wlTotalLeftover p) with
  | Except.error e => Except.error e
  | Except.ok _ => Except.ok
    { poolFees := ⟨passthroughBaseFee p.baseFeeBps p.feeSchedulerParam,
        if p.dynamicFeeEnabled then some (getDynamicFeeParams (minBaseFeeBpsCalc p.baseFeeBps p.feeSchedulerParam)) else none⟩,
      activationType := p.activationType,
      collectFeeMode := p.collectFeeMode,
      migrationOption := p.migrationOption,
      tokenType := p.tokenType,
      tokenDecimal := p.tokenBaseDecimal,
      migrationQuoteThreshold := wlMigrationQuoteThreshold p q,
      partnerLpPercentage := p.partnerLpPercentage,
      creatorLpPercentage := p.creatorLpPercentage,
      partnerLockedLpPercentage := p.partnerLockedLpPercentage,
      creatorLockedLpPercentage := p.creatorLockedLpPercentage,
      sqrtStartPrice := wlPMin p,
      lockedVesting := p.lockedVesting,
      migrationFeeOption := p.migrationFeeOption,
      tokenSupply := ⟨wlTotalSupply p, wlTotalSupply p⟩,
      creatorTradingFeePercentage := p.creatorTradingFeePercentage,
      curve := wlCurve p q }

/-! ## buildCurveWithTwoSegments (src `buildCurve.ts` lines 227-382) -/

def twoSegMigrationBaseSupply (p : BuildCurveWithTwoSegmentsParam) : Int :=
  bnDiv (bnOfNumber p.totalTokenSupply * bnOfNumber p.percentageSupplyOnMigration) 100

def twoSegTotalSupply (p : BuildCurveWithTwoSegmentsParam) : Int :=
  bnOfNumber p.totalTokenSupply * tenPow p.tokenBaseDecimal

def twoSegMigrationQuoteThreshold (p : BuildCurveWithTwoSegmentsParam) : Dec :=
  calculateMigrationQuoteThreshold p.migrationMarketCap p.percentageSupplyOnMigration

def twoSegMigrationQuoteThresholdScaled (p : BuildCurveWithTwoSegmentsParam) : Int :=
  bnOfNumber ((twoSegMigrationQuoteThreshold p).mul (Dec.ofInt (tenPow p.tokenQuoteDecimal)))

def twoSegMigrateSqrtPrice (p : BuildCurveWithTwoSegmentsParam) : Int :=
  getSqrtPriceFromPrice
    ((twoSegMigrationQuoteThreshold p).div (Dec.ofInt (twoSegMigrationBaseSupply p)))
    p.tokenBaseDecimal p.tokenQuoteDecimal

def twoSegMigrationBaseAmount (p : BuildCurveWithTwoSegmentsParam) : Int :=
  getMigrationBaseToken (twoSegMigrationQuoteThresholdScaled p) (twoSegMigrateSqrtPrice p) p.migrationOption

/-- Src line 295 computes the leftover with a float product
`new BN(leftover * 10 ** tokenBaseDecimal)`. -/
def twoSegTotalLeftover (p : BuildCurveWithTwoSegmentsParam) : Int :=
  bnOfNumber (p.leftover.mul (Dec.ofInt (tenPow p.tokenBaseDecimal)))

def twoSegSwapAmount (p : BuildCurveWithTwoSegmentsParam) : Int :=
  twoSegTotalSupply p - twoSegMigrationBaseAmount p - getTotalVestingAmount p.lockedVesting -
    twoSegTotalLeftover p

def twoSegInitialSqrtPrice (p : BuildCurveWithTwoSegmentsParam) : Int :=
  getSqrtPriceFromMarketCap p.initialMarketCap p.totalTokenSupply p.tokenBaseDecimal p.tokenQuoteDecimal

def twoSegCurveResult (p : BuildCurveWithTwoSegmentsParam) : Int × List Segment :=
  getTwoCurve (twoSegMigrateSqrtPrice p) (twoSegInitialSqrtPrice p) (twoSegSwapAmount p)
    (twoSegMigrationQuoteThresholdScaled p)

def twoSegTotalDynamicSupply (p : BuildCurveWithTwoSegmentsParam) : Int :=
  getTotalSupplyFromCurve (twoSegMigrationQuoteThresholdScaled p) (twoSegCurveResult p).1
    (twoSegCurveResult p).2 p.lockedVesting p.migrationOption (twoSegTotalLeftover p)

/-- `buildCurveWithTwoSegments` (src `buildCurve.ts` lines 227-382). -/
def buildCurveWithTwoSegments (p : BuildCurveWithTwoSegmentsParam) :
    Except BuildErr ConfigParameters :=
  match sanitySupplyCheck (twoSegTotalDynamicSupply p) (twoSegTotalSupply p) (twoSegTotalLeftover p) with
  | Except.error e => Except.error e
  | Except.ok _ => Except.ok
    { poolFees := ⟨passthroughBaseFee p.baseFeeBps p.feeSchedulerParam,
        if p.dynamicFeeEnabled then some (getDynamicFeeParams (minBaseFeeBpsCalc p.baseFeeBps p.feeSchedulerParam)) else none⟩,
      activationType := p.activationType,
      collectFeeMode := p.collectFeeMode,
      migrationOption := p.migrationOption,
      tokenType := p.tokenType,
      tokenDecimal := p.tokenBaseDecimal,
      migrationQuoteThreshold := twoSegMigrationQuoteThresholdScaled p,
      partnerLpPercentage := p.partnerLpPercentage,
      creatorLpPercentage := p.creatorLpPercentage,
      partnerLockedLpPercentage := p.partnerLockedLpPercentage,
      creatorLockedLpPercentage := p.creatorLockedLpPercentage,
      sqrtStartPrice := (twoSegCurveResult p).1,
      lockedVesting := p.lockedVesting,
      migrationFeeOption := p.migrationFeeOption,
      tokenSupply := ⟨twoSegTotalSupply p, twoSegTotalSupply p⟩,
      creatorTradingFeePercentage := p.creatorTradingFeePercentage,
      curve := (twoSegCurveResult p).2 }

/-! ## buildCurveWithCreatorFirstBuy (src `buildCurve.ts` lines 578-790).
The parameter `q` is, modelled from the spec, the decimal library's value for
`priceRatio^(1/15)` (src lines 652-656). -/

def fbPMin (p : BuildCurveWithCreatorFirstBuyParam) : Int :=
  getSqrtPriceFromMarketCap p.initialMarketCap p.totalTokenSupply p.tokenBaseDecimal p.tokenQuoteDecimal

def fbPMax (p : BuildCurveWithCreatorFirstBuyParam) : Int :=
  getSqrtPriceFromMarketCap p.migrationMarketCap p.totalTokenSupply p.tokenBaseDecimal p.tokenQuoteDecimal

/-- `new BN(quoteAmount * 10 ** tokenQuoteDecimal)` (src line 629). -/
def fbFirstBuyQuoteAmount (p : BuildCurveWithCreatorFirstBuyParam) : Int :=
  bnOfNumber (p.creatorFirstBuyOption.quoteAmount.mul (Dec.ofInt (tenPow p.tokenQuoteDecimal)))

/-- `new BN(baseAmount * 10 ** tokenBaseDecimal)` (src line 630). -/
def fbFirstBuyBaseAmount (p : BuildCurveWithCreatorFirstBuyParam) : Int :=
  bnOfNumber (p.creatorFirstBuyOption.baseAmount.mul (Dec.ofInt (tenPow p.tokenBaseDecimal)))

def fbCliffFeeNumerator (p : BuildCurveWithCreatorFirstBuyParam) : Int :=
  bpsToFeeNumerator p.baseFeeBps

/-- `quoteAmount * (1e9 - cliffFeeNumerator) / 1e9` (src lines 633-635). -/
def fbQuoteAmountAfterFee (p : BuildCurveWithCreatorFirstBuyParam) : Int :=
  bnDiv (fbFirstBuyQuoteAmount p * (1000000000 - fbCliffFeeNumerator p)) 1000000000

/-- The solved first-buy start price
`p0 = quoteAmountAfterFee << 128 / firstBuyBaseAmount / pMin`
(src `buildCurve.ts` line 637). -/
def firstBuyP0 (quoteAmountAfterFee firstBuyBaseAmount pMin : Int) : Int :=
  bnDiv (bnDiv (quoteAmountAfterFee * twoPow 128) firstBuyBaseAmount) pMin

/-- The first-buy solve of `buildCurveWithCreatorFirstBuy`
(src `buildCurve.ts` lines 637-642): `p0` is solved, then `l0` is computed by
dividing by `pMin - p0` (bn.js asserts on a zero divisor), and only then does
the explicit check `pMin.lt(p0)` throw
`'first price is greater than initial market cap'`. -/
def firstBuySolve (quoteAmountAfterFee firstBuyBaseAmount pMin : Int) :
    Except BuildErr (Int × Int) :=
  if firstBuyBaseAmount = 0 ∨ pMin = 0 then Except.error BuildErr.divisionByZero
  else
    let p0 := firstBuyP0 quoteAmountAfterFee firstBuyBaseAmount pMin
    if pMin - p0 = 0 then Except.error BuildErr.divisionByZero
    else
      let l0 := bnDiv (quoteAmountAfterFee * twoPow 128) (pMin - p0)
      if pMin < p0 then Except.error BuildErr.firstPriceGreaterThanInitialMarketCap
      else Except.ok (p0, l0)

def fbP0 (p : BuildCurveWithCreatorFirstBuyParam) : Int :=
  firstBuyP0 (fbQuoteAmountAfterFee p) (fbFirstBuyBaseAmount p) (fbPMin p)

def fbL0 (p : BuildCurveWithCreatorFirstBuyParam) : Int :=
  bnDiv (fbQuoteAmountAfterFee p * twoPow 128) (fbPMin p - fbP0 p)

def fbSqrtPrices (p : BuildCurveWithCreatorFirstBuyParam) (q : Dec) : List Int :=
  decGrid q (fbPMin p) 16

def fbTotalSupply (p : BuildCurveWithCreatorFirstBuyParam) : Int :=
  bnOfNumber p.totalTokenSupply * tenPow p.tokenBaseDecimal

def fbTotalLeftover (p : BuildCurveWithCreatorFirstBuyParam) : Int :=
  bnOfNumber p.leftover * tenPow p.tokenBaseDecimal

def fbTotalSwapAndMigrationAmount (p : BuildCurveWithCreatorFirstBuyParam) : Int :=
  fbTotalSupply p - getTotalVestingAmount p.lockedVesting - fbTotalLeftover p

def fbSumFactor (p : BuildCurveWithCreatorFirstBuyParam) (q : Dec) : Dec :=
  match fbSqrtPrices p q with
  | [] => Dec.ofInt 0
  | h :: t => sumFactorWalk (Dec.ofInt (fbPMax p)) h t p.liquidityWeights

def fbL1 (p : BuildCurveWithCreatorFirstBuyParam) (q : Dec) : Dec :=
  (Dec.ofInt (fbTotalSwapAndMigrationAmount p - fbFirstBuyBaseAmount p)).div (fbSumFactor p q)

/-- The first-buy curve: the dedicated `l0` segment up to `pMin`, then the 15
weighted segments (src lines 645-650 and 699-707; the loop index stays below
15, so every boundary is a grid price). -/
def fbCurve (p : BuildCurveWithCreatorFirstBuyParam) (q : Dec) : List Segment :=
  ⟨fbPMin p, fbL0 p⟩ ::
    List.zipWith (fun bp k => ⟨bp, ((fbL1 p q).mul k).floor⟩)
      ((fbSqrtPrices p q).drop 1) (weightsPad p.liquidityWeights 15)

def fbSwapBaseAmount (p : BuildCurveWithCreatorFirstBuyParam) (q : Dec) : Int :=
  getBaseTokenForSwap (fbP0 p) (fbPMax p) (fbCurve p q)

def fbSwapBaseAmountBuffer (p : BuildCurveWithCreatorFirstBuyParam) (q : Dec) : Int :=
  getSwapAmountWithBuffer (fbSwapBaseAmount p q) (fbP0 p) (fbCurve p q)

/-- Src line 716 subtracts the buffered amount from the full
swap-and-migration amount (not the after-first-buy amount). -/
def fbMigrationAmount (p : BuildCurveWithCreatorFirstBuyParam) (q : Dec) : Int :=
  fbTotalSwapAndMigrationAmount p - fbSwapBaseAmountBuffer p q

def fbMigrationQuoteThreshold (p : BuildCurveWithCreatorFirstBuyParam) (q : Dec) : Int :=
  bnDiv (fbMigrationAmount p q * fbPMax p * fbPMax p) (twoPow 128)

def fbTotalDynamicSupply (p : BuildCurveWithCreatorFirstBuyParam) (q : Dec) : Int :=
  getTotalSupplyFromCurve (fbMigrationQuoteThreshold p q) (fbP0 p) (fbCurve p q)
    p.lockedVesting p.migrationOption (fbTotalLeftover p)

/-- `buildCurveWithCreatorFirstBuy` (src `buildCurve.ts` lines 578-790).
Note the output base fee (src lines 756-762): the cliff fee numerator is
kept, every scheduler field is the literal zero. -/
def buildCurveWithCreatorFirstBuy (p : BuildCurveWithCreatorFirstBuyParam) (q : Dec) :
    Except BuildErr ConfigParameters :=
  match firstBuySolve (fbQuoteAmountAfterFee p) (fbFirstBuyBaseAmount p) (fbPMin p) with
  | Except.error e => Except.error e
  | Except.ok _ =>
    match sanitySupplyCheck (fbTotalDynamicSupply p q) (fbTotalSupply p) (fbTotalLeftover p) with
    | Except.error e => Except.error e
    | Except.ok _ => Except.ok
      { poolFees := ⟨⟨fbCliffFeeNumerator p, Dec.ofInt 0, 0, 0, 0⟩,
          if p.dynamicFeeEnabled then some (getDynamicFeeParams (minBaseFeeBpsCalc p.baseFeeBps p.feeSchedulerParam)) else none⟩,
        activationType := p.activationType,
        collectFeeMode := p.collectFeeMode,
        migrationOption := p.migrationOption,
        tokenType := p.tokenType,
        tokenDecimal := p.tokenBaseDecimal,
        migrationQuoteThreshold := fbMigrationQuoteThreshold p q,
        partnerLpPercentage := p.partnerLpPercentage,
        creatorLpPercentage := p.creatorLpPercentage,
        partnerLockedLpPercentage := p.partnerLockedLpPercentage,
        creatorLockedLpPercentage := p.creatorLockedLpPercentage,
        sqrtStartPrice := fbP0 p,
        lockedVesting := p.lockedVesting,
        migrationFeeOption := p.migrationFeeOption,
        tokenSupply := ⟨fbTotalSupply p, fbTotalSupply p⟩,
        creatorTradingFeePercentage := p.creatorTradingFeePercentage,
        curve := fbCurve p q }

/-! ## Observation helpers for the statements -/

instance {ε α : Type} [DecidableEq ε] [DecidableEq α] : DecidableEq (Except ε α)
  | Except.ok a, Except.ok b =>
    if h : a = b then isTrue (by rw [h])
    else isFalse (by intro hh; cases hh; exact h rfl)
  | Except.ok _, Except.error _ => isFalse (by intro h; exact Except.noConfusion h)
  | Except.error _, Except.ok _ => isFalse (by intro h; exact Except.noConfusion h)
  | Except.error e, Except.error f =>
    if h : e = f then isTrue (by rw [h])
    else isFalse (by intro hh; cases hh; exact h rfl)

/-- The boundary sqrt prices of a build result: the start price followed by
every segment's upper sqrt price (empty for a failed build). -/
def curveBoundarySqrtPrices : Except BuildErr ConfigParameters → List Int
  | Except.ok cfg => cfg.sqrtStartPrice :: cfg.curve.map Segment.sqrtPrice
  | Except.error _ => []

/-- The last segment's upper sqrt price of a build result. -/
def lastCurveSqrtPriceOf : Except BuildErr ConfigParameters → Option Int
  | Except.ok cfg => (cfg.curve.getLast?).map Segment.sqrtPrice
  | Except.error _ => none

/-- The total base-token amount represented by a configuration's curve
segments, from the start price to the last boundary (glossary identity
`Δbase = L * (1/√p0 - 1/√p1)` per segment). -/
def totalCurveBaseAmount (cfg : ConfigParameters) : Int :=
  getBaseTokenForSwap cfg.sqrtStartPrice (curveLastSqrtPrice cfg.sqrtStartPrice cfg.curve) cfg.curve

/-! ## Concrete builder inputs used by the closed statements -/

def zeroLockedVesting : LockedVesting := ⟨0, 0, 0, 0, 0⟩

def zeroFeeScheduler : FeeSchedulerParam := ⟨Dec.ofInt 0, Dec.ofInt 0, Dec.ofInt 0, 0⟩

/-- Weighted build with all liquidity in the final segment: supply 1 (6/6
decimals), initial market cap 1, migration market cap `2^32`, no vesting, no
leftover; the implied boundary prices are `2^64` to `2^80` and the decimal
16th root of the price ratio is exactly 2. -/
def runWeightedTopHeavy : BuildCurveWithLiquidityWeightsParam :=
  { totalTokenSupply := Dec.ofInt 1,
    initialMarketCap := Dec.ofInt 1,
    migrationMarketCap := Dec.ofInt 4294967296,
    liquidityWeights := List.replicate 15 (Dec.ofInt 0) ++ [Dec.ofInt 1],
    migrationOption := 0, tokenBaseDecimal := 6, tokenQuoteDecimal := 6,
    lockedVesting := zeroLockedVesting, feeSchedulerParam := zeroFeeScheduler,
    baseFeeBps := Dec.ofInt 25, dynamicFeeEnabled := false,
    activationType := 0, collectFeeMode := 0, migrationFeeOption := 0, tokenType := 0,
    partnerLpPercentage := Dec.ofInt 0, creatorLpPercentage := Dec.ofInt 0,
    partnerLockedLpPercentage := Dec.ofInt 100, creatorLockedLpPercentage := Dec.ofInt 0,
    creatorTradingFeePercentage := Dec.ofInt 0, leftover := Dec.ofInt 0 }

/-- The same weighted build with all sixteen weights equal to 1. -/
def runWeightedUniform : BuildCurveWithLiquidityWeightsParam :=
  { runWeightedTopHeavy with liquidityWeights := List.replicate 16 (Dec.ofInt 1) }

/-- Weighted build whose market caps are so close that the decimal 16th root
of the price ratio rounds to exactly 1: initial market cap 1, migration
market cap `1 + 2^-62`, giving boundary prices `2^64` and `2^64 + 1`. -/
def runWeightedFlat : BuildCurveWithLiquidityWeightsParam :=
  { runWeightedUniform with migrationMarketCap := decNorm 4611686018427387905 4611686018427387904 }

/-- Single-segment build: supply 1000 (6/6 decimals), 3% of supply on
migration, quote threshold 97, no vesting, no leftover. -/
def runSingleSegment : BuildCurveParam :=
  { totalTokenSupply := Dec.ofInt 1000,
    percentageSupplyOnMigration := Dec.ofInt 3,
    migrationQuoteThreshold := Dec.ofInt 97,
    migrationOption := 0, tokenBaseDecimal := 6, tokenQuoteDecimal := 6,
    lockedVesting := zeroLockedVesting, feeSchedulerParam := zeroFeeScheduler,
    baseFeeBps := Dec.ofInt 25, dynamicFeeEnabled := false,
    activationType := 0, collectFeeMode := 0, migrationFeeOption := 0, tokenType := 0,
    partnerLpPercentage := Dec.ofInt 0, creatorLpPercentage := Dec.ofInt 0,
    partnerLockedLpPercentage := Dec.ofInt 100, creatorLockedLpPercentage := Dec.ofInt 0,
    creatorTradingFeePercentage := Dec.ofInt 0, leftover := Dec.ofInt 0 }

/-- Creator-first-buy build: supply 4 (6/6 decimals), initial market cap 4,
migration market cap `4 * 2^60` (boundary prices `2^64` to `2^94`, decimal
15th root exactly 4), first buy of 0.000001 quote for 0.1 base at a zero base
fee, leftover 1. -/
def runFirstBuy : BuildCurveWithCreatorFirstBuyParam :=
  { totalTokenSupply := Dec.ofInt 4,
    initialMarketCap := Dec.ofInt 4,
    migrationMarketCap := Dec.ofInt 4611686018427387904,
    liquidityWeights := List.replicate 15 (Dec.ofInt 1),
    creatorFirstBuyOption := ⟨decNorm 1 1000000, decNorm 1 10⟩,
    migrationOption := 0, tokenBaseDecimal := 6, tokenQuoteDecimal := 6,
    lockedVesting := zeroLockedVesting, feeSchedulerParam := zeroFeeScheduler,
    baseFeeBps := Dec.ofInt 0, dynamicFeeEnabled := false,
    activationType := 0, collectFeeMode := 0, migrationFeeOption := 0, tokenType := 0,
    partnerLpPercentage := Dec.ofInt 0, creatorLpPercentage := Dec.ofInt 0,
    partnerLockedLpPercentage := Dec.ofInt 100, creatorLockedLpPercentage := Dec.ofInt 0,
    creatorTradingFeePercentage := Dec.ofInt 0, leftover := Dec.ofInt 1 }

/-- Creator-first-buy build hitting the boundary case: supply 1 (6/6
decimals), initial market cap 1 (`pMin = 2^64`), first buy of 0.000001 quote
for 0.000001 base at a zero base fee, so the scaled amounts are 1 and 1 and
the solved start price `p0` equals `pMin` exactly. -/
def runFirstBuyBoundary : BuildCurveWithCreatorFirstBuyParam :=
  { runFirstBuy with
    totalTokenSupply := Dec.ofInt 1,
    initialMarketCap := Dec.ofInt 1,
    migrationMarketCap := Dec.ofInt 4,
    creatorFirstBuyOption := ⟨decNorm 1 1000000, decNorm 1 1000000⟩,
    leftover := Dec.ofInt 0 }

/-- Two-segment build: supply 1000 (6/6 decimals), initial market cap 20,
migration market cap 320, 20% of supply on migration, leftover 1. -/
def runTwoSegments : BuildCurveWithTwoSegmentsParam :=
  { totalTokenSupply := Dec.ofInt 1000,
    initialMarketCap := Dec.ofInt 20,
    migrationMarketCap := Dec.ofInt 320,
    percentageSupplyOnMigration := Dec.ofInt 20,
    migrationOption := 0, tokenBaseDecimal := 6, tokenQuoteDecimal := 6,
    lockedVesting := zeroLockedVesting, feeSchedulerParam := zeroFeeScheduler,
    baseFeeBps := Dec.ofInt 25, dynamicFeeEnabled := false,
    activationType := 0, collectFeeMode := 0, migrationFeeOption := 0, tokenType := 0,
    partnerLpPercentage := Dec.ofInt 0, creatorLpPercentage := Dec.ofInt 0,
    partnerLockedLpPercentage := Dec.ofInt 100, creatorLockedLpPercentage := Dec.ofInt 0,
    creatorTradingFeePercentage := Dec.ofInt 0, leftover := Dec.ofInt 1 }

/-! # Theorems -/

/-! ## Dec bridge lemmas -/

theorem decNorm_den_pos (n d : Int) : 0 < (decNorm n d).den := by
  unfold decNorm
  split
  · exact Int.one_pos
  · rename_i hd
    have hg : (0 : Int) < (Int.gcd n d : Int) := by
      have : Int.gcd n d ≠ 0 := by
        intro h
        exact hd (Int.gcd_eq_zero_iff.mp h).2
      exact_mod_cast Nat.pos_of_ne_zero this
    split
    · rename_i hpos
      have hdvd : (Int.gcd n d : Int) ∣ d := Int.gcd_dvd_right
      exact Int.ediv_pos_of_pos_of_dvd hpos (le_of_lt hg) hdvd
    · rename_i hneg
      have hneg' : d < 0 := lt_of_le_of_ne (not_lt.mp hneg) hd
      have : d / (Int.gcd n d : Int) < 0 := Int.ediv_neg' hneg' hg
      simpa using Int.neg_pos.mpr this

theorem Dec.add_den_pos (a b : Dec) : 0 < (a.add b).den := decNorm_den_pos _ _

theorem Dec.sub_den_pos (a b : Dec) : 0 < (a.sub b).den := decNorm_den_pos _ _

theorem Dec.mul_den_pos (a b : Dec) : 0 < (a.mul b).den := decNorm_den_pos _ _

theorem Dec.div_den_pos (a b : Dec) : 0 < (a.div b).den := decNorm_den_pos _ _

theorem Dec.ofInt_den_pos (n : Int) : 0 < (Dec.ofInt n).den := Int.one_pos

theorem toRat_decNorm (n d : Int) (hd : d ≠ 0) :
    (decNorm n d).toRat = (n : ℚ) / (d : ℚ) := by
  have hgnat : Int.gcd n d ≠ 0 := by
    intro h
    exact hd (Int.gcd_eq_zero_iff.mp h).2
  unfold decNorm
  rw [if_neg hd]
  set g : Int := (Int.gcd n d : Int) with hgdef
  have hgz : g ≠ 0 := by rw [hgdef]; exact_mod_cast hgnat
  have hgq : (g : ℚ) ≠ 0 := by exact_mod_cast hgz
  obtain ⟨n', hn⟩ : g ∣ n := Int.gcd_dvd_left
  obtain ⟨d', hdq⟩ : g ∣ d := Int.gcd_dvd_right
  have hnd : n / g = n' := by rw [hn]; exact Int.mul_ediv_cancel_left _ hgz
  have hdd : d / g = d' := by rw [hdq]; exact Int.mul_ediv_cancel_left _ hgz
  split
  · simp only [Dec.toRat, hnd, hdd]
    rw [hn, hdq]
    push_cast
    rw [mul_div_mul_left _ _ hgq]
  · simp only [Dec.toRat, hnd, hdd]
    push_cast
    rw [neg_div_neg_eq]
    rw [hn, hdq]
    push_cast
    rw [mul_div_mul_left _ _ hgq]

theorem Dec.toRat_ofInt (n : Int) : (Dec.ofInt n).toRat = (n : ℚ) := by
  simp [Dec.ofInt, Dec.toRat]

theorem Dec.toRat_mul (a b : Dec) (ha : a.den ≠ 0) (hb : b.den ≠ 0) :
    (a.mul b).toRat = a.toRat * b.toRat := by
  unfold Dec.mul
  rw [toRat_decNorm _ _ (mul_ne_zero ha hb)]
  unfold Dec.toRat
  push_cast
  rw [div_mul_div_comm]

theorem Dec.le_iff (a b : Dec) (ha : 0 < a.den) (hb : 0 < b.den) :
    Dec.le a b ↔ a.toRat ≤ b.toRat := by
  unfold Dec.le Dec.toRat
  have ha' : (0 : ℚ) < (a.den : ℚ) := by exact_mod_cast ha
  have hb' : (0 : ℚ) < (b.den : ℚ) := by exact_mod_cast hb
  rw [div_le_div_iff₀ ha' hb']
  constructor
  · intro h; exact_mod_cast h
  · intro h; exact_mod_cast h

theorem Dec.floor_toRat (a : Dec) (ha : 0 < a.den) : a.floor = ⌊a.toRat⌋ := by
  unfold Dec.floor Dec.toRat
  symm
  apply Int.floor_eq_iff.mpr
  have ha' : (0 : ℚ) < (a.den : ℚ) := by exact_mod_cast ha
  constructor
  · rw [le_div_iff₀ ha']
    have := Int.ediv_mul_le a.num (ne_of_gt ha)
    calc ((a.num / a.den : Int) : ℚ) * (a.den : ℚ)
        = ((a.num / a.den * a.den : Int) : ℚ) := by push_cast; ring
      _ ≤ (a.num : ℚ) := by exact_mod_cast this
  · rw [div_lt_iff₀ ha']
    have := Int.lt_ediv_add_one_mul_self a.num ha
    calc (a.num : ℚ) < ((a.num / a.den + 1 : Int) : ℚ) * ((a.den : Int) : ℚ) := by
          exact_mod_cast this
      _ = (((a.num / a.den : Int) : ℚ) + 1) * (a.den : ℚ) := by push_cast; ring
theorem Dec.pow_den_pos (q : Dec) : ∀ n : Nat, 0 < (q.pow n).den
  | 0 => Int.one_pos
  | _ + 1 => Dec.mul_den_pos _ _

theorem Dec.toRat_pow (q : Dec) (hden : 0 < q.den) : ∀ n : Nat, (q.pow n).toRat = q.toRat ^ n
  | 0 => by simp [Dec.pow, Dec.ofInt, Dec.toRat]
  | n + 1 => by
    show (q.mul (q.pow n)).toRat = _
    rw [Dec.toRat_mul _ _ (ne_of_gt hden) (ne_of_gt (Dec.pow_den_pos q n)),
      Dec.toRat_pow q hden n, pow_succ]
    ring

theorem Dec.one_le_toRat (q : Dec) (hden : 0 < q.den) (hq : Dec.le (Dec.ofInt 1) q) :
    (1 : ℚ) ≤ q.toRat := by
  have h := (Dec.le_iff (Dec.ofInt 1) q (Dec.ofInt_den_pos 1) hden).mp hq
  rwa [Dec.toRat_ofInt, Int.cast_one] at h

/-- If `1 ≤ q` then one grid step does not decrease a nonnegative price. -/
theorem le_floor_mul_self (q : Dec) (p : Int) (hden : 0 < q.den)
    (hq : Dec.le (Dec.ofInt 1) q) (hp : 0 ≤ p) : p ≤ (q.mul (Dec.ofInt p)).floor := by
  rw [Dec.floor_toRat _ (Dec.mul_den_pos q (Dec.ofInt p)),
    Dec.toRat_mul _ _ (ne_of_gt hden) (ne_of_gt (Dec.ofInt_den_pos p)), Dec.toRat_ofInt]
  rw [Int.le_floor]
  have hp' : (0 : ℚ) ≤ (p : ℚ) := by exact_mod_cast hp
  exact le_mul_of_one_le_left hp' (Dec.one_le_toRat q hden hq)

/-- One grid step is bounded above by the exact product. -/
theorem floor_mul_le (q : Dec) (p : Int) (hden : 0 < q.den) :
    (((q.mul (Dec.ofInt p)).floor : Int) : ℚ) ≤ q.toRat * (p : ℚ) := by
  rw [Dec.floor_toRat _ (Dec.mul_den_pos q (Dec.ofInt p)),
    Dec.toRat_mul _ _ (ne_of_gt hden) (ne_of_gt (Dec.ofInt_den_pos p)), Dec.toRat_ofInt]
  exact Int.floor_le _

theorem decGrid_length (q : Dec) : ∀ (p : Int) (n : Nat), (decGrid q p n).length = n
  | _, 0 => rfl
  | p, n + 1 => by simp [decGrid, decGrid_length q _ n]

theorem decGrid_mem_ge (q : Dec) (hden : 0 < q.den) (hq : Dec.le (Dec.ofInt 1) q) :
    ∀ (n : Nat) (p : Int), 0 ≤ p → ∀ x ∈ decGrid q p n, p ≤ x
  | 0, _, _, x, hx => by cases hx
  | n + 1, p, hp, x, hx => by
    rcases List.mem_cons.mp hx with h | h
    · omega
    · have hstep : p ≤ (q.mul (Dec.ofInt p)).floor := le_floor_mul_self q p hden hq hp
      have := decGrid_mem_ge q hden hq n ((q.mul (Dec.ofInt p)).floor) (le_trans hp hstep) x h
      omega

theorem decGrid_pairwise (q : Dec) (hden : 0 < q.den) (hq : Dec.le (Dec.ofInt 1) q) :
    ∀ (n : Nat) (p : Int), 0 ≤ p → List.Pairwise (· ≤ ·) (decGrid q p n)
  | 0, _, _ => List.Pairwise.nil
  | n + 1, p, hp => by
    have hstep : p ≤ (q.mul (Dec.ofInt p)).floor := le_floor_mul_self q p hden hq hp
    refine List.pairwise_cons.mpr ⟨fun x hx => ?_, ?_⟩
    · exact le_trans hstep (decGrid_mem_ge q hden hq n _ (le_trans hp hstep) x hx)
    · exact decGrid_pairwise q hden hq n _ (le_trans hp hstep)

theorem decGrid_mem_le (q : Dec) (hden : 0 < q.den) (hq : Dec.le (Dec.ofInt 1) q) :
    ∀ (n : Nat) (p : Int), 0 ≤ p → ∀ x ∈ decGrid q p (n + 1), (x : ℚ) ≤ (p : ℚ) * q.toRat ^ n
  | 0, p, hp, x, hx => by
    rcases List.mem_cons.mp hx with h | h
    · subst h; simp
    · cases h
  | n + 1, p, hp, x, hx => by
    have h1 : (1 : ℚ) ≤ q.toRat := Dec.one_le_toRat q hden hq
    have hp' : (0 : ℚ) ≤ (p : ℚ) := by exact_mod_cast hp
    rcases List.mem_cons.mp hx with h | h
    · subst h
      calc (x : ℚ) = (x : ℚ) * 1 := by ring
        _ ≤ (x : ℚ) * q.toRat ^ (n + 1) := by
            exact mul_le_mul_of_nonneg_left (one_le_pow₀ h1) hp'
    · have hstep : p ≤ (q.mul (Dec.ofInt p)).floor := le_floor_mul_self q p hden hq hp
      have hplow : 0 ≤ (q.mul (Dec.ofInt p)).floor := le_trans hp hstep
      have ih := decGrid_mem_le q hden hq n _ hplow x h
      have hub : (((q.mul (Dec.ofInt p)).floor : Int) : ℚ) ≤ q.toRat * (p : ℚ) :=
        floor_mul_le q p hden
      have hq0 : (0 : ℚ) ≤ q.toRat ^ n := by positivity
      calc (x : ℚ) ≤ (((q.mul (Dec.ofInt p)).floor : Int) : ℚ) * q.toRat ^ n := ih
        _ ≤ (q.toRat * (p : ℚ)) * q.toRat ^ n := mul_le_mul_of_nonneg_right hub hq0
        _ = (p : ℚ) * q.toRat ^ (n + 1) := by ring

/-- Extracting the boundary prices of a zipped curve. -/
theorem map_sqrtPrice_zipWith (f : Int → Dec → Int) :
    ∀ (l1 : List Int) (l2 : List Dec),
      (List.zipWith (fun bp k => (⟨bp, f bp k⟩ : Segment)) l1 l2).map Segment.sqrtPrice =
        l1.take l2.length
  | [], _ => by simp
  | _ :: _, [] => by simp
  | a :: t1, b :: t2 => by simp [map_sqrtPrice_zipWith f t1 t2]

/-- Characterization of the shared supply-reconciliation sanity check. -/
theorem sanitySupplyCheck_ok_iff (d s l : Int) :
    sanitySupplyCheck d s l = Except.ok () ↔ (d ≤ s ∨ d - s < l) := by
  show (if s < d then
      if ¬(d - s < l) then Except.error BuildErr.leftOverDeltaExceedsTotalLeftover
      else Except.ok ()
    else Except.ok ()) = Except.ok () ↔ (d ≤ s ∨ d - s < l)
  by_cases h1 : s < d
  · rw [if_pos h1]
    by_cases h2 : ¬(d - s < l)
    · rw [if_pos h2]
      exact iff_of_false (by simp) (by omega)
    · rw [if_neg h2]
      exact iff_of_true rfl (by omega)
  · rw [if_neg h1]
    exact iff_of_true rfl (by omega)

theorem sanitySupplyCheck_error (d s l : Int) (h : sanitySupplyCheck d s l ≠ Except.ok ()) :
    sanitySupplyCheck d s l = Except.error BuildErr.leftOverDeltaExceedsTotalLeftover := by
  revert h
  show (if s < d then
      if ¬(d - s < l) then Except.error BuildErr.leftOverDeltaExceedsTotalLeftover
      else Except.ok ()
    else Except.ok ()) ≠ Except.ok () → (if s < d then
      if ¬(d - s < l) then Except.error BuildErr.leftOverDeltaExceedsTotalLeftover
      else Except.ok ()
    else Except.ok ()) = Except.error BuildErr.leftOverDeltaExceedsTotalLeftover
  by_cases h1 : s < d
  · rw [if_pos h1]
    by_cases h2 : ¬(d - s < l)
    · rw [if_pos h2]
      intro _
      rfl
    · rw [if_neg h2]
      intro hh
      exact absurd rfl hh
  · rw [if_neg h1]
    intro hh
    exact absurd rfl hh

theorem buildCurveWithLiquidityWeights_isOk_check (p : BuildCurveWithLiquidityWeightsParam)
    (q : Dec) (h : (buildCurveWithLiquidityWeights p q).isOk = true) :
    sanitySupplyCheck (wlTotalDynamicSupply p q) (wlTotalSupply p) (wlTotalLeftover p) =
      Except.ok () := by
  unfold buildCurveWithLiquidityWeights at h
  rcases hc : sanitySupplyCheck (wlTotalDynamicSupply p q) (wlTotalSupply p) (wlTotalLeftover p) with e | u
  · rw [hc] at h
    simp [Except.isOk, Except.toBool] at h
  · cases u
    rfl

theorem buildCurveWithCreatorFirstBuy_isOk_check (p : BuildCurveWithCreatorFirstBuyParam)
    (q : Dec) (h : (buildCurveWithCreatorFirstBuy p q).isOk = true) :
    sanitySupplyCheck (fbTotalDynamicSupply p q) (fbTotalSupply p) (fbTotalLeftover p) =
      Except.ok () := by
  unfold buildCurveWithCreatorFirstBuy at h
  rcases hs : firstBuySolve (fbQuoteAmountAfterFee p) (fbFirstBuyBaseAmount p) (fbPMin p) with e | v
  · rw [hs] at h
    simp [Except.isOk, Except.toBool] at h
  · rw [hs] at h
    rcases hc : sanitySupplyCheck (fbTotalDynamicSupply p q) (fbTotalSupply p) (fbTotalLeftover p) with e | u
    · rw [hc] at h
      simp [Except.isOk, Except.toBool] at h
    · cases u
      rfl

theorem buildCurveWithTwoSegments_isOk_check (p : BuildCurveWithTwoSegmentsParam)
    (h : (buildCurveWithTwoSegments p).isOk = true) :
    sanitySupplyCheck (twoSegTotalDynamicSupply p) (twoSegTotalSupply p) (twoSegTotalLeftover p) =
      Except.ok () := by
  unfold buildCurveWithTwoSegments at h
  rcases hc : sanitySupplyCheck (twoSegTotalDynamicSupply p) (twoSegTotalSupply p) (twoSegTotalLeftover p) with e | u
  · rw [hc] at h
    simp [Except.isOk, Except.toBool] at h
  · cases u
    rfl

/-- bn.js `bitLength` exceeds 64 exactly on values at least `2^64` (for
nonnegative inputs). -/
theorem bnBitLength_overflow_iff (t : Int) :
    (t < 0 ∨ 64 < bnBitLength t) ↔ (t < 0 ∨ (18446744073709551616 : Int) ≤ t) := by
  by_cases ht : t < 0
  · simp [ht]
  · simp only [ht, false_or]
    unfold bnBitLength
    have h1 : 64 < Nat.size t.natAbs ↔ ¬ (Nat.size t.natAbs ≤ 64) := by omega
    rw [h1, Nat.size_le, not_lt]
    have ht' : 0 ≤ t := by omega
    constructor
    · intro h
      have : ((2 ^ 64 : Nat) : Int) ≤ (t.natAbs : Int) := by exact_mod_cast h
      rw [Int.natAbs_of_nonneg ht'] at this
      calc (18446744073709551616 : Int) = ((2 ^ 64 : Nat) : Int) := by norm_num
        _ ≤ t := this
    · intro h
      have h2 : ((2 ^ 64 : Nat) : Int) ≤ t := by
        calc ((2 ^ 64 : Nat) : Int) = (18446744073709551616 : Int) := by norm_num
          _ ≤ t := h
      rw [← Int.natAbs_of_nonneg ht'] at h2
      exact_mod_cast h2

/-! ## Claim theorems -/

/-- C5: Mutual exclusivity of the input pairs.  The validation at the top of
`buildCustomConstantProductCurve` (before any arithmetic) succeeds exactly
when one of the two pairs {percentageSupplyOnMigration,
migrationQuoteThreshold} and {initialMarketCap, migrationMarketCap} is fully
supplied and the other is not; whenever it does not succeed (both full pairs,
neither pair, or only one field of either pair and nothing else) it raises
the InvalidParameterCombination error. -/
theorem buildCustomConstantProductCurve_param_exclusivity
    (pct thr imc mmc : Option Dec) :
    (buildCustomConstantProductCurveValidation pct thr imc mmc).isOk =
      ((pct.isSome && thr.isSome) != (imc.isSome && mmc.isSome)) ∧
    ((buildCustomConstantProductCurveValidation pct thr imc mmc).isOk = false →
      buildCustomConstantProductCurveValidation pct thr imc mmc =
        Except.error BuildErr.invalidParameterCombination) := by
  rcases pct with _ | a <;> rcases thr with _ | b <;> rcases imc with _ | c <;> rcases mmc with _ | d <;>
    exact ⟨rfl, fun h => by first | rfl | exact Bool.noConfusion h⟩

/-- Witness for C5: with no field of either pair supplied, the validation
raises the InvalidParameterCombination error. -/
theorem buildCustomConstantProductCurve_param_exclusivity_witness :
    buildCustomConstantProductCurveValidation none none none none =
      Except.error BuildErr.invalidParameterCombination :=
  (buildCustomConstantProductCurve_param_exclusivity none none none none).2 (by decide)

/-- C6 counterexample: a `buildCurveWithCreatorFirstBuy` input (quote amount
`10^-6`, base amount `10^-6`, zero base fee, initial market cap 1 at 6/6
decimals, so the scaled amounts are 1 and 1 and `pMin = 2^64`) on which the
solved `p0` equals `pMin` — so `p0 ≥ pMin` — yet the build fails with the
bn.js division-by-zero assertion from the `l0` computation, not with the
explicit InconsistentFirstBuy error; the claim that every input with
`p0 ≥ pMin` fails with the explicit error is therefore false. -/
theorem firstBuy_boundary_counterexample :
    fbP0 runFirstBuyBoundary = fbPMin runFirstBuyBoundary ∧
    buildCurveWithCreatorFirstBuy runFirstBuyBoundary (Dec.ofInt 2) =
      Except.error BuildErr.divisionByZero ∧
    BuildErr.divisionByZero ≠ BuildErr.firstPriceGreaterThanInitialMarketCap := by
  decide

/-- C6 amended: for positive base amount and `pMin`, the first-buy solve of
`buildCurveWithCreatorFirstBuy` raises the explicit InconsistentFirstBuy
error exactly when `p0 > pMin` strictly; at `p0 = pMin` it still fails, but
with the bn.js division-by-zero assertion (the `l0` divisor `pMin - p0`
vanishes); it proceeds without any error exactly when `p0 < pMin`. -/
theorem firstBuySolve_trichotomy (qaf B pMin : Int) (hB : 0 < B) (hp : 0 < pMin) :
    (firstBuySolve qaf B pMin = Except.error BuildErr.firstPriceGreaterThanInitialMarketCap ↔
      pMin < firstBuyP0 qaf B pMin) ∧
    (firstBuySolve qaf B pMin = Except.error BuildErr.divisionByZero ↔
      firstBuyP0 qaf B pMin = pMin) ∧
    ((firstBuySolve qaf B pMin).isOk = true ↔ firstBuyP0 qaf B pMin < pMin) := by
  have hne : ¬(B = 0 ∨ pMin = 0) := by omega
  unfold firstBuySolve
  rw [if_neg hne]
  by_cases h1 : pMin - firstBuyP0 qaf B pMin = 0
  · rw [if_pos h1]
    refine ⟨iff_of_false (by simp) (by omega), iff_of_true rfl (by omega), ?_⟩
    exact iff_of_false (by simp [Except.isOk, Except.toBool]) (by omega)
  · rw [if_neg h1]
    by_cases h2 : pMin < firstBuyP0 qaf B pMin
    · rw [if_pos h2]
      refine ⟨iff_of_true rfl h2, iff_of_false (by simp) (by omega), ?_⟩
      exact iff_of_false (by simp [Except.isOk, Except.toBool]) (by omega)
    · rw [if_neg h2]
      refine ⟨iff_of_false (by simp) h2, iff_of_false (by simp) (by omega), ?_⟩
      exact iff_of_true (by simp [Except.isOk, Except.toBool]) (by omega)

/-- Witness for C6 amended: at quote-after-fee 1, base amount 2,
`pMin = 2^64` the solve succeeds and `p0 = 2^63 < pMin`. -/
theorem firstBuySolve_trichotomy_witness :
    (firstBuySolve 1 2 18446744073709551616).isOk = true :=
  ((firstBuySolve_trichotomy 1 2 18446744073709551616 (by decide) (by decide)).2.2).mpr
    (by decide)

/-- C7 counterexample: `calculateVolatilityAccumulator` performs no clamping:
at volatility reference 200000 (index reference, active id and bin offset 0)
it returns 200000, which exceeds the `maxVolatilityAccumulator` of 100000
carried by every dynamic-fee parameter set the code constructs
(`calculateDynamicFeeParameters`). -/
theorem calculateVolatilityAccumulator_not_clamped :
    (calculateDynamicFeeParameters (Dec.ofInt 25) (decNorm 1 5)).maxVolatilityAccumulator = 100000 ∧
    calculateVolatilityAccumulator 200000 0 0 0 = 200000 ∧
    ¬(calculateVolatilityAccumulator 200000 0 0 0 ≤
        (calculateDynamicFeeParameters (Dec.ofInt 25) (decNorm 1 5)).maxVolatilityAccumulator) := by
  decide

/-- C7 amended: for all inputs the computed volatility accumulator equals the
volatility reference plus the absolute difference between the index reference
and `activeId + binOffset`, with no clamping applied by this helper. -/
theorem calculateVolatilityAccumulator_formula (vr ir activeId k : Int) :
    calculateVolatilityAccumulator vr ir activeId k = vr + |ir - (activeId + k)| := by
  unfold calculateVolatilityAccumulator
  rw [Int.abs_eq_natAbs]

/-- C8: the total-supply accountant `getTotalTokenSupply` returns the exact
integer sum `swap + migration + (cliffUnlockAmount + amountPerPeriod *
numberOfPeriod)` and throws the overflow error exactly when that sum is
negative or at least `2^64`; overflow is never silently truncated. -/
theorem getTotalTokenSupply_exact_or_overflow (s m app nper cliff : Int) :
    getTotalTokenSupply s m app nper cliff =
      (if s + m + (cliff + app * nper) < 0 ∨
          (18446744073709551616 : Int) ≤ s + m + (cliff + app * nper)
       then Except.error BuildErr.mathOverflow
       else Except.ok (s + m + (cliff + app * nper))) := by
  show (if s + m + (cliff + app * nper) < 0 ∨ 64 < bnBitLength (s + m + (cliff + app * nper))
      then Except.error BuildErr.mathOverflow
      else Except.ok (s + m + (cliff + app * nper))) = _
  rcases hcond : decide (s + m + (cliff + app * nper) < 0 ∨
      (18446744073709551616 : Int) ≤ s + m + (cliff + app * nper)) with _ | _
  · have h2 : ¬(s + m + (cliff + app * nper) < 0 ∨
        (18446744073709551616 : Int) ≤ s + m + (cliff + app * nper)) := by
      exact of_decide_eq_false hcond
    rw [if_neg (fun hcontra => h2 ((bnBitLength_overflow_iff _).mp hcontra)), if_neg h2]
  · have h2 : s + m + (cliff + app * nper) < 0 ∨
        (18446744073709551616 : Int) ≤ s + m + (cliff + app * nper) :=
      of_decide_eq_true hcond
    rw [if_pos ((bnBitLength_overflow_iff _).mpr h2), if_pos h2]

/-- C9: the vesting round-trip is integer-exact: recomputing the total
vesting amount of a schedule derived by `getLockedVesting` from a target
total returns exactly the target scaled by the token decimals. -/
theorem getLockedVesting_round_trip (t nper app cliffDur freq : Int) (d : Nat) :
    getTotalVestingAmount (getLockedVesting t nper app cliffDur freq d) = t * tenPow d := by
  unfold getTotalVestingAmount getLockedVesting
  ring

/-- C10: every configuration `buildCurveWithCreatorFirstBuy` returns carries
a flat base-fee schedule: `numberOfPeriod = 0`, `reductionFactor = 0`,
`periodFrequency = 0` and `feeSchedulerMode = 0` regardless of the supplied
`feeSchedulerParam`, with only the cliff fee numerator derived from
`baseFeeBps` kept. -/
theorem buildCurveWithCreatorFirstBuy_flat_base_fee
    (p : BuildCurveWithCreatorFirstBuyParam) (q : Dec) :
    (buildCurveWithCreatorFirstBuy p q).map (fun c => c.poolFees.baseFee) =
      (buildCurveWithCreatorFirstBuy p q).map
        (fun _ => (⟨bpsToFeeNumerator p.baseFeeBps, Dec.ofInt 0, 0, 0, 0⟩ : BaseFeeParams)) := by
  unfold buildCurveWithCreatorFirstBuy
  rcases firstBuySolve (fbQuoteAmountAfterFee p) (fbFirstBuyBaseAmount p) (fbPMin p) with e | v
  · rfl
  · rcases sanitySupplyCheck (fbTotalDynamicSupply p q) (fbTotalSupply p) (fbTotalLeftover p) with e | u
    · rfl
    · rfl

/-- C1 counterexample: a successful weighted build (all liquidity weight on
the final segment, supply 1000000 raw units, zero vesting and zero leftover)
whose curve segments represent 666667 raw base units: the claimed sum
`segments + vesting + leftover` lies far below the claimed interval
`[totalSupply - leftover, totalSupply]`, because the migration reserve is not
represented by any segment. -/
theorem conservation_interval_counterexample :
    (buildCurveWithLiquidityWeights runWeightedTopHeavy (Dec.ofInt 2)).map totalCurveBaseAmount =
      Except.ok 666667 ∧
    (buildCurveWithLiquidityWeights runWeightedTopHeavy (Dec.ofInt 2)).map
      (fun c => c.tokenSupply.preMigrationTokenSupply) = Except.ok 1000000 ∧
    getTotalVestingAmount runWeightedTopHeavy.lockedVesting = 0 ∧
    wlTotalLeftover runWeightedTopHeavy = 0 ∧
    ¬((1000000 - 0 : Int) ≤ 666667 + 0 + 0) := by
  decide

/-- C1 amended: for every successful weighted build, the code's recomputed
total dynamic supply (buffered swap portion + migration portion + vesting +
leftover) either stays within the declared total supply, or exceeds it by
strictly less than the leftover amount. -/
theorem weighted_build_supply_conservation (p : BuildCurveWithLiquidityWeightsParam) (q : Dec)
    (h : (buildCurveWithLiquidityWeights p q).isOk = true) :
    wlTotalDynamicSupply p q ≤ wlTotalSupply p ∨
      wlTotalDynamicSupply p q - wlTotalSupply p < wlTotalLeftover p :=
  (sanitySupplyCheck_ok_iff _ _ _).mp (buildCurveWithLiquidityWeights_isOk_check p q h)

/-- Witness for C1 amended: the uniform-weight build succeeds and satisfies
the reconciliation bound. -/
theorem weighted_build_supply_conservation_witness :
    wlTotalDynamicSupply runWeightedUniform (Dec.ofInt 2) ≤ wlTotalSupply runWeightedUniform ∨
      wlTotalDynamicSupply runWeightedUniform (Dec.ofInt 2) - wlTotalSupply runWeightedUniform <
        wlTotalLeftover runWeightedUniform :=
  weighted_build_supply_conservation runWeightedUniform (Dec.ofInt 2) (by decide)

/-- C2 counterexample: a successful weighted build whose last curve segment's
upper sqrt price is the migration price `2^80`, not the global maximum price
constant: `buildCurveWithLiquidityWeights` appends no drain segment. -/
theorem last_boundary_not_max_counterexample :
    lastCurveSqrtPriceOf (buildCurveWithLiquidityWeights runWeightedUniform (Dec.ofInt 2)) =
      some 1208925819614629174706176 ∧
    (1208925819614629174706176 : Int) ≠ MAX_SQRT_PRICE := by
  decide

/-- C2 amended: `buildCurve` (and only this builder mode) appends the final
drain segment: whenever the computed drain liquidity is nonzero, the returned
curve's last segment has upper sqrt price `MAX_SQRT_PRICE` with exactly that
liquidity. -/
theorem buildCurve_appends_drain_segment (p : BuildCurveParam) (h : bcLastLiquidity p ≠ 0) :
    ((buildCurve p).curve).getLast? = some ⟨MAX_SQRT_PRICE, bcLastLiquidity p⟩ := by
  show (bcCurve p).getLast? = _
  unfold bcCurve
  rw [if_neg h]
  exact List.getLast?_concat _

/-- Witness for C2 amended: the single-segment build at supply 1000, 3% on
migration and threshold 97 has a nonzero drain liquidity and its last segment
ends at `MAX_SQRT_PRICE`. -/
theorem buildCurve_appends_drain_segment_witness :
    ((buildCurve runSingleSegment).curve).getLast? =
      some ⟨MAX_SQRT_PRICE, 1061438755806237677446⟩ :=
  (buildCurve_appends_drain_segment runSingleSegment (by decide)).trans (by decide)

/-- C3 counterexample: a successful weighted build (market caps 1 and
`1 + 2^-62`, so the boundary prices collapse to `2^64` with the decimal 16th
root rounding to 1) whose boundary sqrt prices are not strictly increasing:
fifteen consecutive boundaries equal the start price `2^64`. -/
theorem boundary_monotonicity_counterexample :
    curveBoundarySqrtPrices (buildCurveWithLiquidityWeights runWeightedFlat (Dec.ofInt 1)) =
      List.replicate 16 18446744073709551616 ++ [18446744073709551617] ∧
    (buildCurveWithLiquidityWeights runWeightedFlat (Dec.ofInt 1)).isOk = true ∧
    ¬ List.Pairwise (· < ·)
      (List.replicate 16 (18446744073709551616 : Int) ++ [18446744073709551617]) := by
  decide

/-- C3 amended: for the weighted builder, when the decimal root value `q` is
at least 1 (with a positive denominator), the start price `pMin` is positive
and `pMin * q^16` does not exceed `pMax`, the boundary sqrt prices of any
returned configuration (start price followed by the segment boundaries) are
non-decreasing; strict increase can fail, as the counterexample shows. -/
theorem weighted_boundaries_monotone (p : BuildCurveWithLiquidityWeightsParam) (q : Dec)
    (hden : 0 < q.den) (hq : Dec.le (Dec.ofInt 1) q) (hmin : 0 < wlPMin p)
    (hmax : Dec.le ((Dec.ofInt (wlPMin p)).mul (q.pow 16)) (Dec.ofInt (wlPMax p))) :
    List.Pairwise (· ≤ ·) (curveBoundarySqrtPrices (buildCurveWithLiquidityWeights p q)) := by
  rcases hc : sanitySupplyCheck (wlTotalDynamicSupply p q) (wlTotalSupply p) (wlTotalLeftover p) with e | u
  · unfold buildCurveWithLiquidityWeights
    rw [hc]
    exact List.Pairwise.nil
  · unfold buildCurveWithLiquidityWeights
    rw [hc]
    show List.Pairwise (· ≤ ·) (wlPMin p :: (wlCurve p q).map Segment.sqrtPrice)
    have hmap : (wlCurve p q).map Segment.sqrtPrice =
        ((wlSqrtPrices p q).drop 1).take 15 ++ [wlPMax p] := by
      unfold wlCurve
      refine (map_sqrtPrice_zipWith _ _ _).trans ?_
      refine List.take_of_length_le ?_
      simp [weightsPad, decGrid_length, wlSqrtPrices]
    rw [hmap]
    have hgrid : wlSqrtPrices p q =
        wlPMin p :: decGrid q ((q.mul (Dec.ofInt (wlPMin p))).floor) 16 := rfl
    have hcons : wlPMin p :: (((wlSqrtPrices p q).drop 1).take 15 ++ [wlPMax p]) =
        (wlSqrtPrices p q).take 16 ++ [wlPMax p] := by
      rw [hgrid]
      rfl
    rw [hcons]
    rw [List.pairwise_append]
    have hp0 : (0 : Int) ≤ wlPMin p := le_of_lt hmin
    have hPgrid : List.Pairwise (· ≤ ·) (wlSqrtPrices p q) :=
      decGrid_pairwise q hden hq 17 (wlPMin p) hp0
    refine ⟨List.Pairwise.sublist (List.take_sublist 16 _) hPgrid, List.pairwise_singleton _ _, ?_⟩
    intro x hx y hy
    rw [List.mem_singleton] at hy
    subst hy
    have hxg : x ∈ wlSqrtPrices p q := List.mem_of_mem_take hx
    have hxb : (x : ℚ) ≤ ((wlPMin p : Int) : ℚ) * q.toRat ^ 16 := by
      have := decGrid_mem_le q hden hq 16 (wlPMin p) hp0 x
      exact this hxg
    have hcap : ((wlPMin p : Int) : ℚ) * q.toRat ^ 16 ≤ ((wlPMax p : Int) : ℚ) := by
      have h1 := (Dec.le_iff _ _ (Dec.mul_den_pos _ _) (Dec.ofInt_den_pos _)).mp hmax
      rw [Dec.toRat_mul _ _ (ne_of_gt (Dec.ofInt_den_pos _)) (ne_of_gt (Dec.pow_den_pos q 16)),
        Dec.toRat_ofInt, Dec.toRat_ofInt, Dec.toRat_pow q hden 16] at h1
      exact h1
    have : (x : ℚ) ≤ ((wlPMax p : Int) : ℚ) := le_trans hxb hcap
    exact_mod_cast this

/-- Witness for C3 amended: the uniform-weight build (`q = 2`,
`pMin = 2^64`, `pMax = 2^80`) satisfies the hypotheses and its boundary
prices are non-decreasing. -/
theorem weighted_boundaries_monotone_witness :
    List.Pairwise (· ≤ ·)
      (curveBoundarySqrtPrices (buildCurveWithLiquidityWeights runWeightedUniform (Dec.ofInt 2))) :=
  weighted_boundaries_monotone runWeightedUniform (Dec.ofInt 2)
    (by decide) (by decide) (by decide) (by decide)

/-- C4: the supply-reconciliation sanity check, in the three builder modes
that recompute it (`buildCurveWithTwoSegments`,
`buildCurveWithLiquidityWeights`, `buildCurveWithCreatorFirstBuy`): the
check succeeds exactly when the recomputed total dynamic supply does not
exceed the declared total supply or exceeds it by strictly less than the
total leftover; whenever it fails it throws the leftOverDelta error; and
every successful build of these modes satisfies the excess bound. -/
theorem supply_reconciliation_check_behavior :
    (∀ d s l : Int, sanitySupplyCheck d s l = Except.ok () ↔ (d ≤ s ∨ d - s < l)) ∧
    (∀ d s l : Int, sanitySupplyCheck d s l ≠ Except.ok () →
      sanitySupplyCheck d s l = Except.error BuildErr.leftOverDeltaExceedsTotalLeftover) ∧
    (∀ (p : BuildCurveWithLiquidityWeightsParam) (q : Dec),
      (buildCurveWithLiquidityWeights p q).isOk = true →
        wlTotalDynamicSupply p q ≤ wlTotalSupply p ∨
          wlTotalDynamicSupply p q - wlTotalSupply p < wlTotalLeftover p) ∧
    (∀ (p : BuildCurveWithCreatorFirstBuyParam) (q : Dec),
      (buildCurveWithCreatorFirstBuy p q).isOk = true →
        fbTotalDynamicSupply p q ≤ fbTotalSupply p ∨
          fbTotalDynamicSupply p q - fbTotalSupply p < fbTotalLeftover p) ∧
    (∀ p : BuildCurveWithTwoSegmentsParam,
      (buildCurveWithTwoSegments p).isOk = true →
        twoSegTotalDynamicSupply p ≤ twoSegTotalSupply p ∨
          twoSegTotalDynamicSupply p - twoSegTotalSupply p < twoSegTotalLeftover p) := by
  refine ⟨sanitySupplyCheck_ok_iff, sanitySupplyCheck_error, ?_, ?_, ?_⟩
  · intro p q h
    exact (sanitySupplyCheck_ok_iff _ _ _).mp (buildCurveWithLiquidityWeights_isOk_check p q h)
  · intro p q h
    exact (sanitySupplyCheck_ok_iff _ _ _).mp (buildCurveWithCreatorFirstBuy_isOk_check p q h)
  · intro p h
    exact (sanitySupplyCheck_ok_iff _ _ _).mp (buildCurveWithTwoSegments_isOk_check p h)

/-- Witness for C4: the check passes and fails at concrete values, and three
concrete successful builds (one per checked mode) satisfy the excess bound;
the first-buy build in particular exceeds the total supply by exactly 1 raw
unit, strictly below its leftover of 1000000 raw units. -/
theorem supply_reconciliation_check_behavior_witness :
    sanitySupplyCheck 5 10 3 = Except.ok () ∧
    sanitySupplyCheck 17 10 3 = Except.error BuildErr.leftOverDeltaExceedsTotalLeftover ∧
    (wlTotalDynamicSupply runWeightedTopHeavy (Dec.ofInt 2) ≤ wlTotalSupply runWeightedTopHeavy ∨
      wlTotalDynamicSupply runWeightedTopHeavy (Dec.ofInt 2) - wlTotalSupply runWeightedTopHeavy <
        wlTotalLeftover runWeightedTopHeavy) ∧
    (fbTotalDynamicSupply runFirstBuy (Dec.ofInt 4) ≤ fbTotalSupply runFirstBuy ∨
      fbTotalDynamicSupply runFirstBuy (Dec.ofInt 4) - fbTotalSupply runFirstBuy <
        fbTotalLeftover runFirstBuy) ∧
    (twoSegTotalDynamicSupply runTwoSegments ≤ twoSegTotalSupply runTwoSegments ∨
      twoSegTotalDynamicSupply runTwoSegments - twoSegTotalSupply runTwoSegments <
        twoSegTotalLeftover runTwoSegments) :=
  ⟨(supply_reconciliation_check_behavior.1 5 10 3).mpr (by decide),
   supply_reconciliation_check_behavior.2.1 17 10 3 (by decide),
   supply_reconciliation_check_behavior.2.2.1 runWeightedTopHeavy (Dec.ofInt 2) (by decide),
   supply_reconciliation_check_behavior.2.2.2.1 runFirstBuy (Dec.ofInt 4) (by decide),
   supply_reconciliation_check_behavior.2.2.2.2 runTwoSegments (by decide)⟩

end Meteora
